import Mathlib

/-!
Shallow embedding of `src/opaque_keys/edx/locator.py` (Python 2, edX opaque-keys
locators) and verification of its natural-language specification.

Modelling conventions:
* Python `None` for a string-valued field is `Option String`'s `none`;
  truthiness of optional strings is `optTruthy` (`None` and `""` are falsy).
* `bson.objectid.ObjectId` is modelled as a 24-lower-hex string wrapper
  (`ObjectId`); `ObjectId(s)` accepts a 24-hex-digit string (any case,
  rendered lowercase), which is all this module uses.
* Python exceptions are an explicit error type `PyErr`; fallible operations
  return `Except PyErr _`.  `InvalidKeyError(cls, x)` carries the class name
  and the offending input (a string or a field list, as in the source).
* Regular expressions are embedded as executable backtracking matchers that
  follow the Python `re` engine's search order exactly (greedy `+` and `?`
  try the longer/present alternative first, lazy `??` tries absence first);
  character classes are modelled over the ASCII range (`\w` = ASCII
  alphanumeric or `_`), which covers every string these theorems touch.
-/

set_option maxRecDepth 10000

namespace OpaqueKeys

/-- Payload of an `InvalidKeyError`: the offending string (or message), or the
offending list of fields, exactly as passed at each raise site. -/
inductive KeyPayload
  | str (s : String)
  | fieldList (fs : List (Option String))
deriving DecidableEq, Repr

/-- Python exceptions raised by the module: `InvalidKeyError(cls, input)`,
`ValueError(msg)` and `TypeError(msg)`. -/
inductive PyErr
  | invalidKey (cls : String) (input : KeyPayload)
  | valueError (msg : String)
  | typeError (msg : String)
deriving DecidableEq, Repr

/-- Python `\w` (ASCII range): letters, digits, underscore. -/
def isWordChar (c : Char) : Bool := c.isAlpha || c.isDigit || c = '_'

/-- `Locator.ALLOWED_ID_CHARS = r'[\w\-~.:]'`. -/
def allowedChar (c : Char) : Bool :=
  isWordChar c || c = '-' || c = '~' || c = '.' || c = ':'

/-- `Locator.DEPRECATED_ALLOWED_ID_CHARS = r'[\w\-~.:%]'`. -/
def depAllowedChar (c : Char) : Bool := allowedChar c || c = '%'

/-- A character rejected by `CourseLocator.INVALID_CHARS_DEPRECATED = r"[^\w.%-]"`. -/
def depBadChar (c : Char) : Bool := !(isWordChar c || c = '.' || c = '%' || c = '-')

/-- The `[A-F0-9]` class of `URL_RE` under `re.IGNORECASE`. -/
def hexChar (c : Char) : Bool :=
  c.isDigit || ('A' ≤ c && c ≤ 'F') || ('a' ≤ c && c ≤ 'f')

/-- `BlockLocatorBase.ALLOWED_ID_RE = ^[\w\-~.:]+$`. -/
def matchAllowedId (s : String) : Bool := !s.data.isEmpty && s.data.all allowedChar

/-- `BlockLocatorBase.DEPRECATED_ALLOWED_ID_RE = ^[\w\-~.:%]+$`. -/
def matchDepAllowedId (s : String) : Bool := !s.data.isEmpty && s.data.all depAllowedChar

/-- `bson.objectid.ObjectId`, as used here: a 24-hex-digit version id.
The stored `hex` is lowercase, matching `str(ObjectId(...))`. -/
structure ObjectId where
  hex : String
deriving DecidableEq, Repr

/-- `ObjectId(s)` for a string `s`: succeeds exactly on 24 hex digits
(case-insensitive), normalising to lowercase. -/
def asObjectId (s : String) : Option ObjectId :=
  if s.data.length = 24 && s.data.all hexChar then
    some ⟨String.mk (s.data.map Char.toLower)⟩
  else none

/-- A well-formed stored ObjectId: 24 lowercase hex digits. -/
def ObjectId.wf (o : ObjectId) : Bool :=
  o.hex.data.length = 24 && o.hex.data.all (fun c => c.isDigit || ('a' ≤ c && c ≤ 'f'))

/-- `Locator.as_object_id`: casts a string to an ObjectId, raising
`ValueError('"%s" is not a valid version_guid' % value)` on failure. -/
def Locator.as_object_id (value : String) : Except PyErr ObjectId :=
  match asObjectId value with
  | some o => .ok o
  | none => .error (.valueError ("\"" ++ value ++ "\" is not a valid version_guid"))

/-- `LocalId`: marker for a non-persisted block; `uid` stands for the CPython
object identity `id(self)` used by `__str__` when no `block_id` is given. -/
structure LocalId where
  block_id : Option String
  uid : Nat
deriving DecidableEq, Repr

/-- `LocalId.__str__`: `"localid_{}".format(self.block_id or id(self))`. -/
def LocalId.render (l : LocalId) : String :=
  "localid_" ++
    (match l.block_id with
     | some s => if s ≠ "" then s else toString l.uid
     | none => toString l.uid)

/-- Truthiness of an optional Python string (`None` and `""` are falsy). -/
def optTruthy (o : Option String) : Bool :=
  match o with
  | some s => s ≠ ""
  | none => false

/-- `unicode(x)` for an optional string: `None` renders as `"None"`. -/
def pyUnicodeOpt : Option String → String
  | some s => s
  | none => "None"

/-! ### The `URL_RE` backtracking matcher

`BlockLocatorBase.URL_RE` is (whitespace stripped by `re.VERBOSE`):

```
^((?P<org>A+)\+(?P<course>A+)\+(?P<run>A+)\+?)??
 (branch\+(?P<branch>A+)\+?)?
 (version\+(?P<version_guid>[A-F0-9]+)\+?)?
 (type\+(?P<block_type>A+)\+?)?
 (block\+(?P<block_id>A+))?$
```

with `A = [\w\-~.:]`, compiled with `IGNORECASE | VERBOSE | UNICODE`.
The functions below are a continuation-passing backtracking matcher for this
exact pattern: `tokenSplits` enumerates the candidate matches of a greedy
`CLASS+` atom longest-first, optional groups try the group first (greedy `?`)
and the lazy leading group (`??`) tries absence first. -/

/-- Named-group captures of `URL_RE` (`match.groupdict()`). -/
structure GroupDict where
  org : Option String := none
  course : Option String := none
  run : Option String := none
  branch : Option String := none
  version_guid : Option String := none
  block_type : Option String := none
  block_id : Option String := none
deriving DecidableEq, Repr

/-- First successful result over a list of candidates (backtracking order). -/
def firstSome {α β : Type} : List α → (α → Option β) → Option β
  | [], _ => none
  | a :: as, f =>
    match f a with
    | some b => some b
    | none => firstSome as f

/-- Candidate splits for a greedy `CLASS+` atom: every nonempty prefix of the
maximal run of class characters, longest first, paired with the remainder. -/
def tokenSplits (p : Char → Bool) (cs : List Char) : List (List Char × List Char) :=
  (List.range (cs.takeWhile p).length).reverse.map
    (fun j => ((cs.takeWhile p).take (j + 1), (cs.takeWhile p).drop (j + 1) ++ cs.dropWhile p))

/-- Match a greedy `CLASS+` atom and continue; backtracks over shorter tokens. -/
def matchTokR {α : Type} (p : Char → Bool) (cs : List Char)
    (k : List Char → List Char → Option α) : Option α :=
  firstSome (tokenSplits p cs) (fun tr => k tr.1 tr.2)

/-- Case-insensitive literal match (the pattern is compiled with IGNORECASE);
returns the remaining input on success. -/
def litIC : List Char → List Char → Option (List Char)
  | [], cs => some cs
  | _ :: _, [] => none
  | p :: ps, c :: cs => if p.toLower = c.toLower then litIC ps cs else none

/-- Greedy optional `\+?`: try consuming a `'+'` first. -/
def optPlus {α : Type} (cs : List Char) (k : List Char → Option α) : Option α :=
  match cs with
  | '+' :: rest =>
    (match k rest with
     | some d => some d
     | none => k ('+' :: rest))
  | _ => k cs

/-- Ordered alternation: the engine commits to the first alternative that
lets the whole match succeed. -/
def orElseO {α : Type} (a b : Option α) : Option α :=
  match a with
  | some r => some r
  | none => b

/-- Enter a group that begins with a literal: on literal match continue with
the rest, else the group cannot match here. -/
def onLit {α : Type} (lit cs : List Char) (f : List Char → Option α) : Option α :=
  match litIC lit cs with
  | some rest => f rest
  | none => none

/-- The `$` anchor. -/
def endAnchor (d : GroupDict) (cs : List Char) : Option GroupDict :=
  if cs.isEmpty then some d else none

/-- Group 5, `(block\+(?P<block_id>A+))?` then `$`: greedy-optional, so the
group is tried first and skipping it second. -/
def g5 (d : GroupDict) (cs : List Char) : Option GroupDict :=
  orElseO
    (onLit "block+".data cs (fun rest =>
      matchTokR allowedChar rest
        (fun t r2 => endAnchor { d with block_id := some (String.mk t) } r2)))
    (endAnchor d cs)

/-- Group 4, `(type\+(?P<block_type>A+)\+?)?`. -/
def g4 (d : GroupDict) (cs : List Char) : Option GroupDict :=
  orElseO
    (onLit "type+".data cs (fun rest =>
      matchTokR allowedChar rest
        (fun t r2 => optPlus r2 (fun r3 => g5 { d with block_type := some (String.mk t) } r3))))
    (g5 d cs)

/-- Group 3, `(version\+(?P<version_guid>[A-F0-9]+)\+?)?`. -/
def g3 (d : GroupDict) (cs : List Char) : Option GroupDict :=
  orElseO
    (onLit "version+".data cs (fun rest =>
      matchTokR hexChar rest
        (fun t r2 => optPlus r2 (fun r3 => g4 { d with version_guid := some (String.mk t) } r3))))
    (g4 d cs)

/-- Group 2, `(branch\+(?P<branch>A+)\+?)?`. -/
def g2 (d : GroupDict) (cs : List Char) : Option GroupDict :=
  orElseO
    (onLit "branch+".data cs (fun rest =>
      matchTokR allowedChar rest
        (fun t r2 => optPlus r2 (fun r3 => g3 { d with branch := some (String.mk t) } r3))))
    (g3 d cs)

/-- Group 1 (lazy `??`): `((?P<org>A+)\+(?P<course>A+)\+(?P<run>A+)\+?)??` —
absence is tried first, then the org/course/run match with backtracking. -/
def g1 (d : GroupDict) (cs : List Char) : Option GroupDict :=
  orElseO (g2 d cs)
    (matchTokR allowedChar cs (fun o r1 =>
      match r1 with
      | '+' :: r2 =>
        matchTokR allowedChar r2 (fun c r3 =>
          match r3 with
          | '+' :: r4 =>
            matchTokR allowedChar r4 (fun ru r5 =>
              optPlus r5 (fun r6 =>
                g2 { d with org := some (String.mk o), course := some (String.mk c),
                            run := some (String.mk ru) } r6))
          | _ => none)
      | _ => none))

/-- `BlockLocatorBase.parse_url`: match `URL_RE` against the whole string and
return the group dictionary, else raise `InvalidKeyError(cls, string)`. -/
def parse_url (cls : String) (s : String) : Except PyErr GroupDict :=
  match g1 {} s.data with
  | some d => .ok d
  | none => .error (.invalidKey cls (.str s))

/-! ### `CourseLocator` -/

/-- A stored `version_guid` attribute: normally a coerced `ObjectId`, but the
constructor stores a raw (uncoerced) string when coercion is skipped — in the
deprecated branch, and for the falsy string `""` in the current branch. -/
inductive VersionGuid
  | oid (o : ObjectId)
  | raw (s : String)
deriving DecidableEq, Repr

/-- `CourseLocator`: `KEY_FIELDS = ('org', 'course', 'run', 'branch',
'version_guid')` plus the `deprecated` flag stored by the base `OpaqueKey`. -/
structure CourseLocator where
  org : Option String
  course : Option String
  run : Option String
  branch : Option String
  version_guid : Option VersionGuid
  deprecated : Bool
deriving DecidableEq, Repr

/-- The `version_guid` argument accepted by `CourseLocator.__init__`:
`None`, a string, or an already-typed `ObjectId`. -/
inductive VInput
  | vnone
  | vstr (s : String)
  | void (o : ObjectId)
deriving DecidableEq, Repr

/-- What `super().__init__(version_guid=...)` stores when the value was not
coerced (deprecated branch stores the argument verbatim). -/
def VInput.store : VInput → Option VersionGuid
  | .vnone => none
  | .vstr s => some (.raw s)
  | .void o => some (.oid o)

/-- Python truthiness of the `version_guid` argument (`if version_guid:`). -/
def VInput.truthy : VInput → Bool
  | .vnone => false
  | .vstr s => s ≠ ""
  | .void _ => true

/-- Python 2 `repr` of a unicode string (as used by `"{!r}".format(val)`),
for the well-behaved strings reaching it here. -/
def pyRepr (s : String) : String := "u'" ++ s ++ "'"

/-- `CourseLocator._check_location_part(val, INVALID_CHARS_DEPRECATED)`:
`None` passes; a string containing a character outside `[\w.%-]` raises
`InvalidKeyError(cls, "Invalid characters in {!r}.")`.  (The "not a string"
branch is unrepresentable here: the model's parts are optional strings.) -/
def checkLocationPart (val : Option String) : Except PyErr Unit :=
  match val with
  | none => .ok ()
  | some s =>
    if s.data.any depBadChar then
      .error (.invalidKey "CourseLocator" (.str ("Invalid characters in " ++ pyRepr s ++ ".")))
    else .ok ()

/-- `all(self.DEPRECATED_ALLOWED_ID_RE.match(field) for field in fields)`,
evaluated left to right as Python does: a `None` field reaches
`re.match(pattern, None)` and raises `TypeError`; a non-matching string makes
`all` return `False` without evaluating the rest. -/
def depFieldsMatch : List (Option String) → Except PyErr Bool
  | [] => .ok true
  | none :: _ => .error (.typeError "expected string or buffer")
  | some s :: rest => if matchDepAllowedId s then depFieldsMatch rest else .ok false

/-- The version handling of the current (non-deprecated) constructor branch:
`if version_guid: version_guid = self.as_object_id(version_guid)` — a truthy
value is coerced (`ObjectId` inputs pass through, strings parse or raise
`ValueError`); a falsy value (`None` or `""`) is stored uncoerced. -/
def coerceVersionCur : VInput → Except PyErr (Option VersionGuid)
  | .vnone => .ok none
  | .vstr s =>
    if s = "" then .ok (some (VersionGuid.raw ""))
    else (Locator.as_object_id s).map (fun o => some (VersionGuid.oid o))
  | .void o => .ok (some (VersionGuid.oid o))

/-- One conjunct of the current-branch charset check:
`field is None or self.ALLOWED_ID_RE.match(field)`. -/
def curFieldOk (f : Option String) : Bool := f.isNone || matchAllowedId (f.getD "")

/-- `CourseLocator.__init__(org, course, run, branch, version_guid, deprecated)`.
Follows the source line by line: the deprecated branch checks
`_check_location_part` on org/course/run then the deprecated charset on
`[org, course] (+run if not None) (+branch if not None)`; the current branch
coerces a truthy `version_guid` via `as_object_id` (propagating its
`ValueError`) and checks the current charset on all four optional fields;
after field storage the two `InvalidKeyError` combination checks run. -/
def mkCourseLocator (org course run branch : Option String) (version_guid : VInput)
    (deprecated : Bool) : Except PyErr CourseLocator := do
  let stored ←
    if deprecated then do
      checkLocationPart org
      checkLocationPart course
      checkLocationPart run
      let fields := [org, course] ++ (if run.isSome then [run] else [])
        ++ (if branch.isSome then [branch] else [])
      let ok ← depFieldsMatch fields
      if ok then pure version_guid.store
      else .error (.invalidKey "CourseLocator" (.fieldList fields))
    else do
      let coerced ← coerceVersionCur version_guid
      if [org, course, run, branch].all curFieldOk then
        pure coerced
      else
        .error (.invalidKey "CourseLocator" (.fieldList [org, course, run, branch]))
  if deprecated && (org.isNone || course.isNone) then
    .error (.invalidKey "CourseLocator" (.str "Deprecated strings must set both org and course."))
  else if !deprecated && stored.isNone && (org.isNone || course.isNone || run.isNone) then
    .error (.invalidKey "CourseLocator" (.str "Either version_guid or org, course, and run should be set"))
  else
    .ok ⟨org, course, run, branch, stored, deprecated⟩

/-- Truthiness of a stored `version_guid` (`if self.version_guid:`). -/
def vgOptTruthy : Option VersionGuid → Bool
  | some (.oid _) => true
  | some (.raw s) => s ≠ ""
  | none => false

/-- `unicode(self.version_guid)` for a truthy stored guid. -/
def vgStr : Option VersionGuid → String
  | some (.oid o) => o.hex
  | some (.raw s) => s
  | none => "None"

/-- `BlockLocatorBase.package_id`: `org+course+run` when all three are truthy,
else `None`. -/
def CourseLocator.package_id (x : CourseLocator) : Option String :=
  if optTruthy x.org && optTruthy x.course && optTruthy x.run then
    some ((x.org.getD "") ++ "+" ++ (x.course.getD "") ++ "+" ++ (x.run.getD ""))
  else none

/-- `CourseLocator._to_string`: emits `package_id` (plus `branch+<branch>` when
branch is truthy) when course and run are truthy, then `version+<guid>` when
the version is truthy, joined by `+`.  Note `unicode(self.package_id)` renders
a `None` package id (org falsy while course and run are truthy) as `"None"`. -/
def CourseLocator.to_string (x : CourseLocator) : String :=
  let parts : List String :=
    (if optTruthy x.course && optTruthy x.run then
      [pyUnicodeOpt x.package_id]
        ++ (if optTruthy x.branch then ["branch+" ++ (x.branch.getD "")] else [])
    else [])
    ++ (if vgOptTruthy x.version_guid then ["version+" ++ vgStr x.version_guid] else [])
  String.intercalate "+" parts

/-- `CourseLocator._from_string`: `parse_url`, coerce a present (hence
nonempty, hence truthy) `version_guid` group via `as_object_id` (propagating
its `ValueError`), then construct from the `KEY_FIELDS` entries of the
group dictionary (`deprecated` defaults to `False`). -/
def CourseLocator.from_string (s : String) : Except PyErr CourseLocator := do
  let d ← parse_url "CourseLocator" s
  let vin ←
    match d.version_guid with
    | some h => do
      let o ← Locator.as_object_id h
      pure (VInput.void o)
    | none => pure VInput.vnone
  mkCourseLocator d.org d.course d.run d.branch vin false

/-- `CourseLocator.version_agnostic`: rebuild with `version_guid=None`
(`deprecated` is not passed, so it defaults to `False`). -/
def CourseLocator.version_agnostic (x : CourseLocator) : Except PyErr CourseLocator :=
  mkCourseLocator x.org x.course x.run x.branch .vnone false

/-- `CourseLocator.course_agnostic`: rebuild keeping only `version_guid`. -/
def CourseLocator.course_agnostic (x : CourseLocator) : Except PyErr CourseLocator :=
  mkCourseLocator none none none none
    (match x.version_guid with
     | some (.oid o) => .void o
     | some (.raw s) => .vstr s
     | none => .vnone) false

/-- `CourseLocator.for_branch`: raises `InvalidKeyError` when `org is None`,
else rebuilds with the new branch and `version_guid=None` (and, since
`deprecated` is not passed, a non-deprecated result). -/
def CourseLocator.for_branch (x : CourseLocator) (branch : Option String) :
    Except PyErr CourseLocator :=
  if x.org.isNone then
    .error (.invalidKey "CourseLocator" (.str "Branches must have full course ids not just versions"))
  else
    mkCourseLocator x.org x.course x.run branch .vnone false

/-- `CourseLocator.for_version`: rebuild with the new `version_guid`. -/
def CourseLocator.for_version (x : CourseLocator) (version_guid : VInput) :
    Except PyErr CourseLocator :=
  mkCourseLocator x.org x.course x.run x.branch version_guid false

/-- `CourseLocator._to_deprecated_string`: `u'/'.join([org, course, run])`;
Python's `join` raises `TypeError` when a field is `None`. -/
def CourseLocator.to_deprecated_string (x : CourseLocator) : Except PyErr String :=
  match x.org, x.course, x.run with
  | some o, some c, some r => .ok (o ++ "/" ++ c ++ "/" ++ r)
  | _, _, _ => .error (.typeError "sequence item: expected string or Unicode, NoneType found")

/-- Python 2 `str.split(sep)` for a one-character separator, on char lists. -/
def splitChL (sep : Char) : List Char → List (List Char)
  | [] => [[]]
  | c :: rest =>
    let r := splitChL sep rest
    if c = sep then [] :: r
    else
      match r with
      | h :: t => (c :: h) :: t
      | [] => [[c]]

/-- `CourseLocator._from_deprecated_string`: requires exactly two `/` in the
string (`serialized.count('/') != 2` raises `InvalidKeyError`), then
`cls(*serialized.split('/'), deprecated=True)`.  (With two separators the
split always has three parts; the fallback arm is unreachable.) -/
def CourseLocator.from_deprecated_string (s : String) : Except PyErr CourseLocator :=
  if s.data.count '/' ≠ 2 then
    .error (.invalidKey "CourseLocator" (.str s))
  else
    match splitChL '/' s.data with
    | [a, b, c] =>
      mkCourseLocator (some (String.mk a)) (some (String.mk b)) (some (String.mk c))
        none .vnone true
    | _ => .error (.invalidKey "CourseLocator" (.str s))

/-! ### `BlockUsageLocator` -/

/-- A `block_id` argument: a string, a `LocalId`, or `None` (Python is
dynamically typed; these are the shapes the source mentions). -/
inductive BlockRef
  | str (s : String)
  | localId (l : LocalId)
  | pynone
deriving DecidableEq, Repr

/-- `str()`/format rendering of a block id. -/
def BlockRef.render : BlockRef → String
  | .str s => s
  | .localId l => l.render
  | .pynone => "None"

/-- `BlockUsageLocator._parse_block_ref`.  The source computes
`is_local_id`, `is_valid_deprecated = deprecated and DEPRECATED_RE.match(block_ref)`
and `is_valid = ALLOWED_ID_RE.match(block_ref)` eagerly: for any non-string
`block_ref` (a `LocalId` or `None`) one of the two `re.match` calls runs on a
non-string and raises `TypeError`, so the `is_local_id` disjunct can never
accept a `LocalId`.  For a string, it returns the string unchanged when it
matches the current charset (or, when `deprecated`, the deprecated charset),
else raises `InvalidKeyError(cls, block_ref)`. -/
def parse_block_ref (block_ref : BlockRef) (deprecated : Bool) : Except PyErr BlockRef :=
  match block_ref with
  | .str s =>
    let is_valid_deprecated := deprecated && matchDepAllowedId s
    let is_valid := matchAllowedId s
    if is_valid || is_valid_deprecated then .ok (.str s)
    else .error (.invalidKey "BlockUsageLocator" (.str s))
  | .localId _ => .error (.typeError "expected string or buffer")
  | .pynone => .error (.typeError "expected string or buffer")

/-- `BlockUsageLocator`: `KEY_FIELDS = ('course_key', 'block_type', 'block_id')`
plus the stored `deprecated` flag. -/
structure BlockUsageLocator where
  course_key : CourseLocator
  block_type : Option String
  block_id : BlockRef
  deprecated : Bool
deriving DecidableEq, Repr

/-- `BlockUsageLocator.__init__`: runs `_parse_block_ref` (whose errors
propagate), raises `InvalidKeyError(cls, "Missing block id")` if the result is
`None`, then stores the fields. -/
def mkBlockUsageLocator (course_key : CourseLocator) (block_type : Option String)
    (block_id : BlockRef) (deprecated : Bool) : Except PyErr BlockUsageLocator := do
  let bid ← parse_block_ref block_id deprecated
  if bid = BlockRef.pynone then
    .error (.invalidKey "BlockUsageLocator" (.str "Missing block id"))
  else
    .ok ⟨course_key, block_type, bid, deprecated⟩

/-- `BlockUsageLocator._to_string`:
`"{course_key}+type+{block_type}+block+{block_id}"`. -/
def BlockUsageLocator.to_string (x : BlockUsageLocator) : String :=
  x.course_key.to_string ++ "+type+" ++ pyUnicodeOpt x.block_type
    ++ "+block+" ++ x.block_id.render

/-- `BlockUsageLocator._from_string`: delegates to
`CourseLocator._from_string` on the whole string, re-parses the URL for the
block groups, raises `InvalidKeyError` if `block_id` is absent, then
constructs (with `deprecated` defaulting to `False`). -/
def BlockUsageLocator.from_string (s : String) : Except PyErr BlockUsageLocator := do
  let ck ← CourseLocator.from_string s
  let d ← parse_url "BlockUsageLocator" s
  match d.block_id with
  | none => .error (.invalidKey "BlockUsageLocator" (.str s))
  | some bid => mkBlockUsageLocator ck d.block_type (.str bid) false

/-- `BlockUsageLocator._to_deprecated_string`:
`i4x://org/course/block_type/block_id` with `@branch` when branch is truthy. -/
def BlockUsageLocator.to_deprecated_string (x : BlockUsageLocator) : String :=
  let url := "i4x://" ++ pyUnicodeOpt x.course_key.org ++ "/" ++ pyUnicodeOpt x.course_key.course
    ++ "/" ++ pyUnicodeOpt x.block_type ++ "/" ++ x.block_id.render
  if optTruthy x.course_key.branch then url ++ "@" ++ (x.course_key.branch.getD "") else url

/-- Named groups of `BlockUsageLocator.DEPRECATED_URL_RE`. -/
structure DepGroups where
  org : String
  course : String
  category : String
  name : String
  revision : Option String
deriving DecidableEq, Repr

/-- Tail of `DEPRECATED_URL_RE` after the three `org/course/category/` groups:
`(?P<name>[^@]+)(@(?P<revision>[^/]+))?` — greedy, unanchored (`re.match`
needs only a prefix match, so leftover input is fine). -/
def depTail (o c cat : List Char) (rest : List Char) : Option DepGroups :=
  matchTokR (fun ch => ch ≠ '@') rest (fun nm r5 =>
    orElseO
      (match r5 with
       | '@' :: r6 =>
         matchTokR (fun ch => ch ≠ '/') r6 (fun rv _ =>
           some ⟨String.mk o, String.mk c, String.mk cat, String.mk nm, some (String.mk rv)⟩)
       | _ => none)
      (some ⟨String.mk o, String.mk c, String.mk cat, String.mk nm, none⟩))

/-- Leading group of `DEPRECATED_URL_RE`: `([^:/]+://?|/[^/]+)` — an ordered
alternation, the second `/` of `://` optional and greedy. -/
def depHead {α : Type} (cs : List Char) (k : List Char → Option α) : Option α :=
  orElseO
    (matchTokR (fun ch => ch ≠ ':' && ch ≠ '/') cs (fun _ r1 =>
      match r1 with
      | ':' :: '/' :: r2 =>
        (match r2 with
         | '/' :: r3 => orElseO (k r3) (k r2)
         | _ => k r2)
      | _ => none))
    (match cs with
     | '/' :: r1 => matchTokR (fun ch => ch ≠ '/') r1 (fun _ r2 => k r2)
     | _ => none)

/-- `BlockUsageLocator.DEPRECATED_URL_RE.match`: the head group, then
`(?P<org>[^/]+)/(?P<course>[^/]+)/(?P<category>[^/]+)/`, then `depTail`. -/
def depURLRe (cs : List Char) : Option DepGroups :=
  depHead cs (fun r1 =>
    matchTokR (fun ch => ch ≠ '/') r1 (fun o r2 =>
      match r2 with
      | '/' :: r3 =>
        matchTokR (fun ch => ch ≠ '/') r3 (fun c r4 =>
          match r4 with
          | '/' :: r5 =>
            matchTokR (fun ch => ch ≠ '/') r5 (fun cat r6 =>
              match r6 with
              | '/' :: r7 => depTail o c cat r7
              | _ => none)
          | _ => none)
      | _ => none))

/-- `BlockUsageLocator._from_deprecated_string`: match `DEPRECATED_URL_RE`
(else `InvalidKeyError`), build the deprecated course key with `run=None` and
`branch=revision`, then construct with `deprecated=True`. -/
def BlockUsageLocator.from_deprecated_string (s : String) : Except PyErr BlockUsageLocator := do
  match depURLRe s.data with
  | none => .error (.invalidKey "BlockUsageLocator" (.str s))
  | some g => do
    let ck ← mkCourseLocator (some g.org) (some g.course) none g.revision .vnone true
    mkBlockUsageLocator ck (some g.category) (.str g.name) true

/-! ### `DefinitionLocator` -/

/-- A stored `definition_id`: an `ObjectId` or a `LocalId`. -/
inductive DefId
  | oid (o : ObjectId)
  | localId (l : LocalId)
deriving DecidableEq, Repr

/-- `DefinitionLocator`: `KEY_FIELDS = ('definition_id', 'block_type')`. -/
structure DefinitionLocator where
  definition_id : DefId
  block_type : Option String
deriving DecidableEq, Repr

/-- The `definition_id` argument given to `DefinitionLocator.__init__`: a
`LocalId`, a string, an `ObjectId`, or anything else. -/
inductive DefIdInput
  | localId (l : LocalId)
  | str (s : String)
  | oid (o : ObjectId)
  | otherInput
deriving DecidableEq, Repr

/-- Outcome of `DefinitionLocator.__init__`: fields initialised, an exception,
or — for an input matching none of the three `isinstance` arms — a silent
fall-through that never calls `super().__init__`, leaving the instance
uninitialised (no exception is raised). -/
inductive DefInitResult
  | inited (d : DefinitionLocator)
  | failed (e : PyErr)
  | uninitialized
deriving DecidableEq, Repr

/-- `DefinitionLocator.__init__(block_type, definition_id)`: a `LocalId` or
`ObjectId` is stored as-is; a string is coerced via `as_object_id`, with its
`ValueError` turned into `InvalidKeyError(self, definition_id)`; any other
input falls through silently. -/
def mkDefinitionLocator (block_type : Option String) (definition_id : DefIdInput) :
    DefInitResult :=
  match definition_id with
  | .localId l => .inited ⟨.localId l, block_type⟩
  | .str s =>
    match asObjectId s with
    | some o => .inited ⟨.oid o, block_type⟩
    | none => .failed (.invalidKey "DefinitionLocator" (.str s))
  | .oid o => .inited ⟨.oid o, block_type⟩
  | .otherInput => .uninitialized

/-- `unicode(self.definition_id)`. -/
def DefId.render : DefId → String
  | .oid o => o.hex
  | .localId l => l.render

/-- `DefinitionLocator._to_string`: `"{definition_id}+type+{block_type}"`. -/
def DefinitionLocator.to_string (x : DefinitionLocator) : String :=
  x.definition_id.render ++ "+type+" ++ pyUnicodeOpt x.block_type

/-- `DefinitionLocator.URL_RE`:
`^(?P<definition_id>[A-F0-9]+)\+type\+(?P<block_type>[\w\-~.:]+)$` with
IGNORECASE; returns the two captures. -/
def defURLRe (cs : List Char) : Option (String × String) :=
  matchTokR hexChar cs (fun did r1 =>
    match litIC "+type+".data r1 with
    | some r2 =>
      matchTokR allowedChar r2 (fun bt r3 =>
        if r3.isEmpty then some (String.mk did, String.mk bt) else none)
    | none => none)

/-- `DefinitionLocator._from_string`: match `URL_RE` (else `InvalidKeyError`),
coerce the (nonempty) hex id via `as_object_id` (its `ValueError` propagates
uncaught), then construct; an `ObjectId` input always initialises, so the
uninitialised arm cannot be reached from here. -/
def DefinitionLocator.from_string (s : String) : Except PyErr DefinitionLocator := do
  match defURLRe s.data with
  | none => .error (.invalidKey "DefinitionLocator" (.str s))
  | some (did, bt) => do
    let o ← Locator.as_object_id did
    match mkDefinitionLocator (some bt) (.oid o) with
    | .inited d => .ok d
    | .failed e => .error e
    | .uninitialized => .error (.typeError "unreachable: ObjectId input always initialises")

/-! ### `VersionTree` -/

/-- A concrete locator, as accepted by `VersionTree`. -/
inductive AnyLocator
  | course (c : CourseLocator)
  | block (b : BlockUsageLocator)
  | defn (d : DefinitionLocator)
deriving DecidableEq, Repr

/-- The value returned by `locator.version()`: a course/block locator returns
its (possibly `None`) `version_guid`; a definition locator returns its
`definition_id`. -/
inductive PyVersionVal
  | vg (v : VersionGuid)
  | did (d : DefId)
  | pynone
deriving DecidableEq, Repr

/-- `locator.version()`. -/
def AnyLocator.versionVal : AnyLocator → PyVersionVal
  | .course c => match c.version_guid with | some v => .vg v | none => .pynone
  | .block b => match b.course_key.version_guid with | some v => .vg v | none => .pynone
  | .defn d => .did d.definition_id

/-- Python truthiness of a `version()` value (`if not locator.version():`). -/
def PyVersionVal.truthy : PyVersionVal → Bool
  | .vg (.oid _) => true
  | .vg (.raw s) => s ≠ ""
  | .did _ => true
  | .pynone => false

/-- `VersionTree`: a locator and its recursively built children. -/
inductive VersionTree
  | node (locator : AnyLocator) (children : List VersionTree)

/-- `tree_dict.get(locator.version(), [])`. -/
def lookupVV (td : List (PyVersionVal × List AnyLocator)) (k : PyVersionVal) :
    List AnyLocator :=
  match td.find? (fun e => e.1 == k) with
  | some e => e.2
  | none => []

/-- `VersionTree.__init__`: the `isinstance` guard never fires for a concrete
locator; a falsy `locator.version()` raises
`ValueError("locator must be version specific ...")`; children come from
looking the version up in `tree_dict` (absent/`None` dict means no children)
and wrapping each child the same way.  The Python recursion terminates only
for acyclic `tree_dict`s (a documented caller precondition); `fuel` bounds it,
with exhaustion modelling the interpreter's `RuntimeError`. -/
def buildVersionTree : Nat → AnyLocator → Option (List (PyVersionVal × List AnyLocator)) →
    Except PyErr VersionTree
  | 0, _, _ => .error (.typeError "maximum recursion depth exceeded")
  | Nat.succ fuel, loc, td =>
    if !loc.versionVal.truthy then
      .error (.valueError "locator must be version specific (Course has version_guid or definition had id)")
    else
      match td with
      | none => .ok (.node loc [])
      | some d => do
        let children ← (lookupVV d loc.versionVal).mapM
          (fun cl => buildVersionTree fuel cl (some d))
        .ok (.node loc children)

/-- Equality of `Except` results is decidable (needed to evaluate the model
on concrete inputs inside proofs). -/
instance {ε α : Type} [DecidableEq ε] [DecidableEq α] : DecidableEq (Except ε α) := fun a b =>
  match a, b with
  | Except.error e, Except.error f =>
    if h : e = f then isTrue (by rw [h]) else isFalse (by intro hc; cases hc; exact h rfl)
  | Except.error _, Except.ok _ => isFalse (by intro hc; cases hc)
  | Except.ok _, Except.error _ => isFalse (by intro hc; cases hc)
  | Except.ok x, Except.ok y =>
    if h : x = y then isTrue (by rw [h]) else isFalse (by intro hc; cases hc; exact h rfl)

/-! ### Verification auxiliaries

Definitions used only to state and prove the theorems below (token validity,
canonical tail shapes of rendered strings, and the like). -/

/-- A character legal in a deprecated org/course/run part: it must survive
both `_check_location_part` (no char outside `[\w.%-]`) and the deprecated
charset regex.  `[\w.%-]` is a subset of `[\w\-~.:%]`, so this is the
intersection. -/
def legacyChar (c : Char) : Bool := isWordChar c || c = '.' || c = '%' || c = '-'

/-- A valid deprecated location part: nonempty, all `legacyChar`. -/
def legacyTok (s : String) : Bool := !s.data.isEmpty && s.data.all legacyChar

/-- The remainder does not start with a class character (so a greedy `CLASS+`
atom cannot extend into it). -/
def headNotP (p : Char → Bool) : List Char → Prop
  | [] => True
  | c :: _ => p c = false

/-- A nonempty all-`p` token, as a proposition on char lists. -/
def tokP (p : Char → Bool) (t : List Char) : Prop := t ≠ [] ∧ ∀ c ∈ t, p c = true

/-- Canonical `+type+T+block+I` tail of a rendered block-usage string
(`none` for course strings). -/
def tbTail : Option (List Char × List Char) → List Char
  | none => []
  | some (t, i) => '+' :: ("type+".data ++ (t ++ ('+' :: ("block+".data ++ i))))

/-- Canonical `[+version+V]` tail followed by `tbTail`. -/
def vgTail (vg : Option (List Char)) (tb : Option (List Char × List Char)) : List Char :=
  match vg with
  | none => tbTail tb
  | some v => '+' :: ("version+".data ++ (v ++ tbTail tb))

/-- Canonical `[+branch+B]` tail followed by `vgTail`. -/
def brTail (br : Option (List Char)) (vg : Option (List Char))
    (tb : Option (List Char × List Char)) : List Char :=
  match br with
  | none => vgTail vg tb
  | some b => '+' :: ("branch+".data ++ (b ++ vgTail vg tb))

/-- Record the type/block captures. -/
def withTB (d : GroupDict) : Option (List Char × List Char) → GroupDict
  | none => d
  | some (t, i) => { d with block_type := some (String.mk t), block_id := some (String.mk i) }

/-- Record the version capture. -/
def withVG (d : GroupDict) : Option (List Char) → GroupDict
  | none => d
  | some v => { d with version_guid := some (String.mk v) }

/-- Record the branch capture. -/
def withBR (d : GroupDict) : Option (List Char) → GroupDict
  | none => d
  | some b => { d with branch := some (String.mk b) }

/-- Validity of the optional type/block tail tokens. -/
def tbOkP : Option (List Char × List Char) → Prop
  | none => True
  | some (t, i) => tokP allowedChar t ∧ tokP allowedChar i

/-- Validity of the optional version token. -/
def vgOkP : Option (List Char) → Prop
  | none => True
  | some v => tokP hexChar v

/-- Validity of the optional branch token. -/
def brOkP : Option (List Char) → Prop
  | none => True
  | some b => tokP allowedChar b

/-! ## Generic lemmas about the backtracking matcher -/

lemma takeWhile_tok (p : Char → Bool) (t rest : List Char) (hall : ∀ c ∈ t, p c = true) :
    (t ++ rest).takeWhile p = t ++ rest.takeWhile p := by
  induction t with
  | nil => simp
  | cons c t ih =>
    have hc : p c = true := hall c (List.mem_cons_self c t)
    simp [List.takeWhile_cons, hc, ih (fun d hd => hall d (List.mem_cons_of_mem _ hd))]

lemma dropWhile_tok (p : Char → Bool) (t rest : List Char) (hall : ∀ c ∈ t, p c = true) :
    (t ++ rest).dropWhile p = rest.dropWhile p := by
  induction t with
  | nil => simp
  | cons c t ih =>
    have hc : p c = true := hall c (List.mem_cons_self c t)
    simp [List.dropWhile_cons, hc, ih (fun d hd => hall d (List.mem_cons_of_mem _ hd))]

lemma takeWhile_headNot (p : Char → Bool) (rest : List Char) (h : headNotP p rest) :
    rest.takeWhile p = [] := by
  cases rest with
  | nil => simp
  | cons c cs => simp [List.takeWhile_cons, headNotP] at h ⊢; simp [h]

lemma dropWhile_headNot (p : Char → Bool) (rest : List Char) (h : headNotP p rest) :
    rest.dropWhile p = rest := by
  cases rest with
  | nil => simp
  | cons c cs => simp [List.dropWhile_cons, headNotP] at h ⊢; simp [h]

/-- The greedy `CLASS+` atom tries the full token first; if the continuation
succeeds there, that is the match. -/
lemma matchTokR_first {α : Type} (p : Char → Bool) (t rest : List Char)
    (k : List Char → List Char → Option α) (v : α)
    (hne : t ≠ []) (hall : ∀ c ∈ t, p c = true) (hrest : headNotP p rest)
    (hk : k t rest = some v) :
    matchTokR p (t ++ rest) k = some v := by
  obtain ⟨n, hn⟩ : ∃ n, t.length = n + 1 := by
    cases t with
    | nil => exact absurd rfl hne
    | cons c cs => exact ⟨cs.length, rfl⟩
  have htake : (t ++ rest).takeWhile p = t := by
    rw [takeWhile_tok p t rest hall, takeWhile_headNot p rest hrest, List.append_nil]
  have hdrop : (t ++ rest).dropWhile p = rest := by
    rw [dropWhile_tok p t rest hall, dropWhile_headNot p rest hrest]
  unfold matchTokR tokenSplits
  rw [htake, hdrop, hn, List.range_succ, List.reverse_append]
  simp only [List.reverse_cons, List.reverse_nil, List.nil_append, List.singleton_append,
    List.map_cons]
  have h1 : t.take (n + 1) = t := by
    rw [← hn]; exact List.take_length t
  have h2 : t.drop (n + 1) = [] := by
    rw [← hn]; exact List.drop_length t
  rw [h1, h2]
  simp only [List.nil_append, firstSome, hk]

lemma litIC_self_append : ∀ (pat rest : List Char), litIC pat (pat ++ rest) = some rest
  | [], _ => rfl
  | p :: ps, rest => by simp [litIC, litIC_self_append ps rest]

lemma optPlus_plus_some {α : Type} (rest : List Char) (k : List Char → Option α) (v : α)
    (h : k rest = some v) : optPlus ('+' :: rest) k = some v := by
  simp [optPlus, h]

lemma optPlus_nil {α : Type} (k : List Char → Option α) : optPlus [] k = k [] := rfl

lemma orElseO_some {α : Type} (v : α) (b : Option α) : orElseO (some v) b = some v := rfl

lemma orElseO_none {α : Type} (b : Option α) : orElseO none b = b := rfl

lemma onLit_self {α : Type} (lit rest : List Char) (f : List Char → Option α) :
    onLit lit (lit ++ rest) f = f rest := by
  unfold onLit; rw [litIC_self_append]

lemma onLit_none {α : Type} (lit cs : List Char) (f : List Char → Option α)
    (h : litIC lit cs = none) : onLit lit cs f = none := by
  unfold onLit; rw [h]

/-! ## First-path evaluation of `URL_RE` on canonically rendered strings -/

lemma g2_eq_g3 (d : GroupDict) (cs : List Char) (h : litIC "branch+".data cs = none) :
    g2 d cs = g3 d cs := by
  unfold g2; rw [onLit_none _ _ _ h]; rfl

lemma g3_eq_g4 (d : GroupDict) (cs : List Char) (h : litIC "version+".data cs = none) :
    g3 d cs = g4 d cs := by
  unfold g3; rw [onLit_none _ _ _ h]; rfl

lemma g5_block (d : GroupDict) (i : List Char) (hi : tokP allowedChar i) :
    g5 d ("block+".data ++ i) = some { d with block_id := some (String.mk i) } := by
  have hm : matchTokR allowedChar (i ++ [])
      (fun t r2 => endAnchor { d with block_id := some (String.mk t) } r2)
      = some { d with block_id := some (String.mk i) } :=
    matchTokR_first _ i [] _ _ hi.1 hi.2 trivial rfl
  rw [List.append_nil] at hm
  unfold g5
  rw [onLit_self, hm]
  rfl

lemma g4_typeblock (d : GroupDict) (t i : List Char)
    (ht : tokP allowedChar t) (hi : tokP allowedChar i) :
    g4 d ("type+".data ++ (t ++ ('+' :: ("block+".data ++ i))))
      = some { d with block_type := some (String.mk t), block_id := some (String.mk i) } := by
  have hm : matchTokR allowedChar (t ++ ('+' :: ("block+".data ++ i)))
      (fun tc r2 => optPlus r2 (fun r3 => g5 { d with block_type := some (String.mk tc) } r3))
      = some { d with block_type := some (String.mk t), block_id := some (String.mk i) } := by
    refine matchTokR_first _ t _ _ _ ht.1 ht.2 ?_ ?_
    · show allowedChar '+' = false
      decide
    · exact optPlus_plus_some _ _ _ (g5_block _ i hi)
  unfold g4
  rw [onLit_self, hm]
  rfl

lemma g4_after_tb (d : GroupDict) (tb : Option (List Char × List Char)) (htb : tbOkP tb) :
    optPlus (tbTail tb) (fun r => g4 d r) = some (withTB d tb) := by
  cases tb with
  | none => rfl
  | some ti =>
    obtain ⟨t, i⟩ := ti
    exact optPlus_plus_some _ _ _ (g4_typeblock d t i htb.1 htb.2)

lemma g3_version (d : GroupDict) (v : List Char) (tb : Option (List Char × List Char))
    (hv : tokP hexChar v) (htb : tbOkP tb) :
    g3 d ("version+".data ++ (v ++ tbTail tb))
      = some (withTB { d with version_guid := some (String.mk v) } tb) := by
  have hm : matchTokR hexChar (v ++ tbTail tb)
      (fun vc r2 => optPlus r2 (fun r3 => g4 { d with version_guid := some (String.mk vc) } r3))
      = some (withTB { d with version_guid := some (String.mk v) } tb) := by
    apply matchTokR_first _ v _ _ _ hv.1 hv.2
    · cases tb with
      | none => trivial
      | some ti => obtain ⟨t, i⟩ := ti; exact (by decide : hexChar '+' = false)
    · exact g4_after_tb _ tb htb
  unfold g3
  rw [onLit_self, hm]
  rfl

lemma g3_after_vgtb (d : GroupDict) (vg : Option (List Char))
    (tb : Option (List Char × List Char)) (hv : vgOkP vg) (htb : tbOkP tb) :
    optPlus (vgTail vg tb) (fun r => g3 d r) = some (withTB (withVG d vg) tb) := by
  cases vg with
  | none =>
    cases tb with
    | none => rfl
    | some ti =>
      obtain ⟨t, i⟩ := ti
      apply optPlus_plus_some
      have hlit : litIC "version+".data
          ("type+".data ++ (t ++ ('+' :: ("block+".data ++ i)))) = none := rfl
      rw [g3_eq_g4 _ _ hlit]
      exact g4_typeblock d t i htb.1 htb.2
  | some v =>
    exact optPlus_plus_some _ _ _ (g3_version d v tb hv htb)

lemma g2_after_brvgtb (d : GroupDict) (br vg : Option (List Char))
    (tb : Option (List Char × List Char)) (hbr : brOkP br) (hv : vgOkP vg) (htb : tbOkP tb) :
    optPlus (brTail br vg tb) (fun r => g2 d r)
      = some (withTB (withVG (withBR d br) vg) tb) := by
  cases br with
  | none =>
    cases vg with
    | none =>
      cases tb with
      | none => rfl
      | some ti =>
        obtain ⟨t, i⟩ := ti
        apply optPlus_plus_some
        have hlit1 : litIC "branch+".data
            ("type+".data ++ (t ++ ('+' :: ("block+".data ++ i)))) = none := rfl
        have hlit2 : litIC "version+".data
            ("type+".data ++ (t ++ ('+' :: ("block+".data ++ i)))) = none := rfl
        rw [g2_eq_g3 _ _ hlit1, g3_eq_g4 _ _ hlit2]
        exact g4_typeblock d t i htb.1 htb.2
    | some v =>
      apply optPlus_plus_some
      have hlit : litIC "branch+".data
          ("version+".data ++ (v ++ tbTail tb)) = none := rfl
      rw [g2_eq_g3 _ _ hlit]
      exact g3_version d v tb hv htb
  | some b =>
    apply optPlus_plus_some
    have hm : matchTokR allowedChar (b ++ vgTail vg tb)
        (fun bc r2 => optPlus r2 (fun r3 => g3 { d with branch := some (String.mk bc) } r3))
        = some (withTB (withVG { d with branch := some (String.mk b) } vg) tb) := by
      apply matchTokR_first _ b _ _ _ hbr.1 hbr.2
      · cases vg with
        | none =>
          cases tb with
          | none => trivial
          | some ti => obtain ⟨t, i⟩ := ti; exact (by decide : allowedChar '+' = false)
        | some v => exact (by decide : allowedChar '+' = false)
      · exact g3_after_vgtb _ vg tb hv htb
    unfold g2
    rw [onLit_self, hm]
    rfl

/-- `URL_RE` on a canonical `org+course+run[tail]` string, given that the
engine's first path (skipping the lazy org/course/run group) fails. -/
lemma g1_orgform (d : GroupDict) (o c r : List Char) (br vg : Option (List Char))
    (tb : Option (List Char × List Char))
    (ho : tokP allowedChar o) (hc : tokP allowedChar c) (hr : tokP allowedChar r)
    (hbr : brOkP br) (hv : vgOkP vg) (htb : tbOkP tb)
    (hskip : g2 d (o ++ ('+' :: (c ++ ('+' :: (r ++ brTail br vg tb))))) = none) :
    g1 d (o ++ ('+' :: (c ++ ('+' :: (r ++ brTail br vg tb)))))
      = some (withTB (withVG (withBR
          { d with org := some (String.mk o), course := some (String.mk c),
                   run := some (String.mk r) } br) vg) tb) := by
  have hrun : matchTokR allowedChar (r ++ brTail br vg tb)
      (fun ru r5 => optPlus r5 (fun r6 =>
        g2 { d with org := some (String.mk o), course := some (String.mk c),
                    run := some (String.mk ru) } r6))
      = some (withTB (withVG (withBR
          { d with org := some (String.mk o), course := some (String.mk c),
                   run := some (String.mk r) } br) vg) tb) := by
    apply matchTokR_first _ r _ _ _ hr.1 hr.2
    · cases br with
      | none =>
        cases vg with
        | none =>
          cases tb with
          | none => trivial
          | some ti => obtain ⟨t, i⟩ := ti; exact (by decide : allowedChar '+' = false)
        | some v => exact (by decide : allowedChar '+' = false)
      | some b => exact (by decide : allowedChar '+' = false)
    · exact g2_after_brvgtb _ br vg tb hbr hv htb
  have hcourse : matchTokR allowedChar (c ++ ('+' :: (r ++ brTail br vg tb)))
      (fun cc r3 =>
        match r3 with
        | '+' :: r4 =>
          matchTokR allowedChar r4 (fun ru r5 =>
            optPlus r5 (fun r6 =>
              g2 { d with org := some (String.mk o), course := some (String.mk cc),
                          run := some (String.mk ru) } r6))
        | _ => none)
      = some (withTB (withVG (withBR
          { d with org := some (String.mk o), course := some (String.mk c),
                   run := some (String.mk r) } br) vg) tb) := by
    refine matchTokR_first _ c _ _ _ hc.1 hc.2 ?_ hrun
    show allowedChar '+' = false
    decide
  have horg : matchTokR allowedChar (o ++ ('+' :: (c ++ ('+' :: (r ++ brTail br vg tb)))))
      (fun oc r1 =>
        match r1 with
        | '+' :: r2 =>
          matchTokR allowedChar r2 (fun cc r3 =>
            match r3 with
            | '+' :: r4 =>
              matchTokR allowedChar r4 (fun ru r5 =>
                optPlus r5 (fun r6 =>
                  g2 { d with org := some (String.mk oc), course := some (String.mk cc),
                              run := some (String.mk ru) } r6))
            | _ => none)
        | _ => none)
      = some (withTB (withVG (withBR
          { d with org := some (String.mk o), course := some (String.mk c),
                   run := some (String.mk r) } br) vg) tb) := by
    refine matchTokR_first _ o _ _ _ ho.1 ho.2 ?_ hcourse
    show allowedChar '+' = false
    decide
  unfold g1
  rw [hskip, orElseO_none]
  exact horg

/-- `URL_RE` on a canonical `version+V[tail]` string: the first path (lazy
group absent) succeeds directly. -/
lemma g1_vonly (d : GroupDict) (v : List Char) (tb : Option (List Char × List Char))
    (hv : tokP hexChar v) (htb : tbOkP tb) :
    g1 d ("version+".data ++ (v ++ tbTail tb))
      = some (withTB { d with version_guid := some (String.mk v) } tb) := by
  have h2 : g2 d ("version+".data ++ (v ++ tbTail tb))
      = some (withTB { d with version_guid := some (String.mk v) } tb) := by
    have hlit : litIC "branch+".data
        ("version+".data ++ (v ++ tbTail tb)) = none := rfl
    rw [g2_eq_g3 _ _ hlit]
    exact g3_version d v tb hv htb
  unfold g1
  rw [h2, orElseO_some]

/-! ## Character-class and string facts -/

lemma str_ne_empty_iff (s : String) : s ≠ "" ↔ s.data ≠ [] := by
  constructor
  · intro h hd
    exact h (by cases s; simp at hd; simp [hd])
  · intro h he
    exact h (by simp [he])

lemma map_toLower_self (l : List Char) (h : ∀ x ∈ l, Char.toLower x = x) :
    l.map Char.toLower = l := by
  induction l with
  | nil => rfl
  | cons a l ih =>
    simp only [List.map_cons, h a (List.mem_cons_self a l)]
    rw [ih (fun x hx => h x (List.mem_cons_of_mem _ hx))]

lemma toLower_of_lhex (c : Char) (h : (c.isDigit || ('a' ≤ c && c ≤ 'f')) = true) :
    c.toLower = c := by
  rw [Bool.or_eq_true] at h
  have hn : ¬(c.toNat ≥ 65 ∧ c.toNat ≤ 90) := by
    rcases h with h | h
    · simp only [Char.isDigit, Bool.and_eq_true, decide_eq_true_eq] at h
      have h2 : c.toNat ≤ 57 := h.2
      omega
    · rw [Bool.and_eq_true, decide_eq_true_eq, decide_eq_true_eq] at h
      have h1 : 97 ≤ c.toNat := h.1
      omega
  simp only [Char.toLower]
  rw [if_neg hn]

lemma lhex_is_hexChar (c : Char) (h : (c.isDigit || ('a' ≤ c && c ≤ 'f')) = true) :
    hexChar c = true := by
  simp only [hexChar, Bool.or_eq_true] at h ⊢
  rcases h with h | h
  · exact Or.inl (Or.inl h)
  · exact Or.inr h

/-- `as_object_id` is the identity on a well-formed stored ObjectId's hex. -/
lemma as_object_id_wf (o : ObjectId) (h : o.wf = true) :
    Locator.as_object_id o.hex = .ok o := by
  rw [ObjectId.wf, Bool.and_eq_true, List.all_eq_true] at h
  obtain ⟨hlen, hall⟩ := h
  have hhex : o.hex.data.all hexChar = true := by
    rw [List.all_eq_true]
    exact fun c hc => lhex_is_hexChar c (hall c hc)
  have hmap : o.hex.data.map Char.toLower = o.hex.data :=
    map_toLower_self _ (fun c hc => toLower_of_lhex c (hall c hc))
  have : asObjectId o.hex = some o := by
    unfold asObjectId
    have hcond : (decide (o.hex.data.length = 24) && o.hex.data.all hexChar) = true := by
      rw [Bool.and_eq_true]
      exact ⟨hlen, hhex⟩
    rw [if_pos hcond, hmap]
  unfold Locator.as_object_id
  rw [this]

/-- A well-formed ObjectId's hex satisfies the `URL_RE` hex-token predicate. -/
lemma wf_tokP_hex (o : ObjectId) (h : o.wf = true) : tokP hexChar o.hex.data := by
  rw [ObjectId.wf, Bool.and_eq_true, List.all_eq_true] at h
  obtain ⟨hlen, hall⟩ := h
  constructor
  · intro hnil
    rw [hnil] at hlen
    exact absurd (of_decide_eq_true hlen) (by decide)
  · exact fun c hc => lhex_is_hexChar c (hall c hc)

lemma matchAllowedId_tokP (s : String) (h : matchAllowedId s = true) :
    tokP allowedChar s.data := by
  rw [matchAllowedId, Bool.and_eq_true, List.all_eq_true] at h
  exact ⟨by simpa using h.1, h.2⟩

lemma matchAllowedId_ne_empty (s : String) (h : matchAllowedId s = true) : s ≠ "" := by
  rw [str_ne_empty_iff]
  exact (matchAllowedId_tokP s h).1

lemma depBadChar_eq_not_legacy (c : Char) : depBadChar c = !legacyChar c := rfl

lemma legacyChar_dep (c : Char) (h : legacyChar c = true) : depAllowedChar c = true := by
  simp only [legacyChar, Bool.or_eq_true] at h
  simp only [depAllowedChar, allowedChar, Bool.or_eq_true]
  tauto

lemma legacyTok_no_bad (s : String) (h : legacyTok s = true) :
    s.data.any depBadChar = false := by
  rw [legacyTok, Bool.and_eq_true, List.all_eq_true] at h
  rw [← Bool.not_eq_true, List.any_eq_true]
  rintro ⟨c, hc, hbad⟩
  rw [depBadChar_eq_not_legacy, h.2 c hc] at hbad
  exact absurd hbad (by decide)

lemma legacyTok_dep (s : String) (h : legacyTok s = true) : matchDepAllowedId s = true := by
  rw [legacyTok, Bool.and_eq_true, List.all_eq_true] at h
  rw [matchDepAllowedId, Bool.and_eq_true, List.all_eq_true]
  exact ⟨h.1, fun c hc => legacyChar_dep c (h.2 c hc)⟩

lemma legacyTok_ne_char (s : String) (h : legacyTok s = true) (b : Char)
    (hb : legacyChar b = false) : ∀ c ∈ s.data, c ≠ b := by
  rw [legacyTok, Bool.and_eq_true, List.all_eq_true] at h
  intro c hc he
  have hl := h.2 c hc
  rw [he, hb] at hl
  exact Bool.false_ne_true hl

lemma legacyTok_nonempty (s : String) (h : legacyTok s = true) : s.data ≠ [] := by
  rw [legacyTok, Bool.and_eq_true] at h
  simpa using h.1

/-! ## Constructor success lemmas -/

lemma curFieldOk_some (s : String) : curFieldOk (some s) = matchAllowedId s := by
  simp [curFieldOk]

lemma curFieldOk_none : curFieldOk none = true := rfl

/-- The current (non-deprecated) constructor succeeds on valid present
org/course/run, a valid-or-absent branch, and a successfully coerced version. -/
lemma mk_cur_ok (o c r : String) (br : Option String) (vin : VInput)
    (stored : Option VersionGuid)
    (ho : matchAllowedId o = true) (hc : matchAllowedId c = true)
    (hr : matchAllowedId r = true) (hbr : ∀ b ∈ br, matchAllowedId b = true)
    (hcoerce : coerceVersionCur vin = .ok stored) :
    mkCourseLocator (some o) (some c) (some r) br vin false
      = .ok ⟨some o, some c, some r, br, stored, false⟩ := by
  have hall : [some o, some c, some r, br].all curFieldOk = true := by
    simp only [List.all_cons, List.all_nil, curFieldOk_some, ho, hc, hr, Bool.and_true,
      Bool.true_and]
    cases br with
    | none => rfl
    | some b => rw [curFieldOk_some]; exact hbr b rfl
  simp [mkCourseLocator, hcoerce, hall, Bind.bind, Except.bind, pure, Except.pure]

/-- The current constructor also succeeds version-only (all name fields
absent) provided the coerced version is present. -/
lemma mk_vonly_ok (vin : VInput) (stored : Option VersionGuid)
    (hcoerce : coerceVersionCur vin = .ok stored) (hs : stored.isSome = true) :
    mkCourseLocator none none none none vin false
      = .ok ⟨none, none, none, none, stored, false⟩ := by
  have hne : ¬(stored = none) := by
    cases stored with
    | none => simp at hs
    | some v => exact fun hcon => Option.noConfusion hcon
  simp [mkCourseLocator, hcoerce, curFieldOk_none, hne, Bind.bind, Except.bind, pure, Except.pure]

/-- The deprecated constructor succeeds on valid legacy org/course and
valid-or-absent run/branch (version argument `None`). -/
lemma mk_dep_ok (o c : String) (run br : Option String)
    (ho : legacyTok o = true) (hc : legacyTok c = true)
    (hrun : ∀ t ∈ run, legacyTok t = true) (hbr : ∀ t ∈ br, legacyTok t = true) :
    mkCourseLocator (some o) (some c) run br .vnone true
      = .ok ⟨some o, some c, run, br, none, true⟩ := by
  have hco : checkLocationPart (some o) = .ok () := by
    simp [checkLocationPart, legacyTok_no_bad o ho]
  have hcc : checkLocationPart (some c) = .ok () := by
    simp [checkLocationPart, legacyTok_no_bad c hc]
  have hcr : checkLocationPart run = .ok () := by
    cases run with
    | none => rfl
    | some t => simp [checkLocationPart, legacyTok_no_bad t (hrun t rfl)]
  have hfields : depFieldsMatch ([some o, some c] ++ (if run.isSome then [run] else [])
      ++ (if br.isSome then [br] else [])) = .ok true := by
    cases run with
    | none =>
      cases br with
      | none => simp [depFieldsMatch, legacyTok_dep o ho, legacyTok_dep c hc]
      | some b =>
        simp [depFieldsMatch, legacyTok_dep o ho, legacyTok_dep c hc,
          legacyTok_dep b (hbr b rfl)]
    | some t =>
      cases br with
      | none =>
        simp [depFieldsMatch, legacyTok_dep o ho, legacyTok_dep c hc,
          legacyTok_dep t (hrun t rfl)]
      | some b =>
        simp [depFieldsMatch, legacyTok_dep o ho, legacyTok_dep c hc,
          legacyTok_dep t (hrun t rfl), legacyTok_dep b (hbr b rfl)]
  simp only [List.cons_append, List.nil_append, List.append_assoc] at hfields
  simp [mkCourseLocator, hco, hcc, hcr, hfields, VInput.store, Bind.bind, Except.bind, pure, Except.pure]

lemma forall_mem_some {α : Type} {p : α → Prop} (b : α) (hb : p b) :
    ∀ a ∈ (some b : Option α), p a := by
  intro a ha
  rw [Option.mem_def, Option.some_inj] at ha
  rw [ha] at hb
  exact hb

lemma asObjectId_ne_empty (v : String) (ov : ObjectId) (h : asObjectId v = some ov) :
    v ≠ "" := by
  intro he
  rw [he] at h
  simp [asObjectId] at h

lemma forall_mem_none {α : Type} {p : α → Prop} : ∀ a ∈ (none : Option α), p a := by
  intro a ha
  cases ha

lemma coerce_vstr_ok (v : String) (ov : ObjectId) (h : asObjectId v = some ov) :
    coerceVersionCur (.vstr v) = .ok (some (VersionGuid.oid ov)) := by
  simp only [coerceVersionCur]
  rw [if_neg (asObjectId_ne_empty v ov h)]
  unfold Locator.as_object_id
  rw [h]
  rfl

/-! ## Lemmas about the legacy split -/

lemma splitChL_nosep (sep : Char) (a : List Char) (ha : ∀ ch ∈ a, ch ≠ sep) :
    splitChL sep a = [a] := by
  induction a with
  | nil => rfl
  | cons c a ih =>
    have hc : c ≠ sep := ha c (List.mem_cons_self c a)
    rw [splitChL, if_neg hc, ih (fun ch hch => ha ch (List.mem_cons_of_mem _ hch))]

lemma splitChL_append_sep (sep : Char) (a rest : List Char) (ha : ∀ ch ∈ a, ch ≠ sep) :
    splitChL sep (a ++ sep :: rest) = a :: splitChL sep rest := by
  induction a with
  | nil => simp [splitChL]
  | cons c a ih =>
    have hc : c ≠ sep := ha c (List.mem_cons_self c a)
    rw [List.cons_append, splitChL, if_neg hc,
      ih (fun ch hch => ha ch (List.mem_cons_of_mem _ hch))]

lemma count_nosep (sep : Char) (a : List Char) (ha : ∀ ch ∈ a, ch ≠ sep) :
    a.count sep = 0 := by
  rw [List.count_eq_zero]
  intro hmem
  exact ha sep hmem rfl

/-! ## Rendered-string shapes -/

lemma strmk_data (s : String) : String.mk s.data = s := rfl

lemma data_plus : "+".data = ['+'] := rfl

lemma intercalate_one (a : String) : String.intercalate "+" [a] = a := rfl

lemma intercalate_two (a b : String) : String.intercalate "+" [a, b] = a ++ "+" ++ b := rfl

lemma intercalate_three (a b c : String) :
    String.intercalate "+" [a, b, c] = a ++ "+" ++ b ++ "+" ++ c := rfl

lemma optTruthy_some (s : String) (h : s ≠ "") : optTruthy (some s) = true := by
  simp [optTruthy, h]

/-- Data of the canonical render of an org/course/run course identifier
(with optional branch and optional version). -/
lemma to_string_orgform (o c r : String) (br : Option String) (vgf : Option ObjectId)
    (ho : o ≠ "") (hc : c ≠ "") (hr : r ≠ "") (hbr : ∀ b ∈ br, b ≠ "") :
    (CourseLocator.to_string ⟨some o, some c, some r, br, vgf.map VersionGuid.oid, false⟩).data
      = o.data ++ ('+' :: (c.data ++ ('+' :: (r.data
          ++ brTail (br.map String.data) (vgf.map (fun g => g.hex.data)) none)))) := by
  cases br with
  | none =>
    cases vgf with
    | none =>
      simp [CourseLocator.to_string, CourseLocator.package_id, ho, hc, hr, optTruthy,
        vgOptTruthy, vgStr, pyUnicodeOpt, intercalate_one, intercalate_two,
        intercalate_three, brTail, vgTail, tbTail, String.data_append, data_plus,
        List.append_assoc]
    | some g =>
      simp [CourseLocator.to_string, CourseLocator.package_id, ho, hc, hr, optTruthy,
        vgOptTruthy, vgStr, pyUnicodeOpt, intercalate_one, intercalate_two,
        intercalate_three, brTail, vgTail, tbTail, String.data_append, data_plus,
        List.append_assoc]
  | some b =>
    have hbne : b ≠ "" := hbr b rfl
    cases vgf with
    | none =>
      simp [CourseLocator.to_string, CourseLocator.package_id, ho, hc, hr, hbne,
        optTruthy, vgOptTruthy, vgStr, pyUnicodeOpt, intercalate_one, intercalate_two,
        intercalate_three, brTail, vgTail, tbTail, String.data_append, data_plus,
        List.append_assoc]
    | some g =>
      simp [CourseLocator.to_string, CourseLocator.package_id, ho, hc, hr, hbne,
        optTruthy, vgOptTruthy, vgStr, pyUnicodeOpt, intercalate_one, intercalate_two,
        intercalate_three, brTail, vgTail, tbTail, String.data_append, data_plus,
        List.append_assoc]

/-- Data of the canonical render of a version-only course identifier. -/
lemma to_string_vonly (g : ObjectId) :
    (CourseLocator.to_string ⟨none, none, none, none, some (.oid g), false⟩).data
      = "version+".data ++ (g.hex.data ++ tbTail none) := by
  simp [CourseLocator.to_string, CourseLocator.package_id, optTruthy, vgOptTruthy,
    vgStr, intercalate_one, tbTail, String.data_append]

/-! ## Course-identifier round trip (current form) -/

lemma brOkP_of_valid (br : Option String) (hbr : ∀ b ∈ br, matchAllowedId b = true) :
    brOkP (br.map String.data) := by
  cases br with
  | none => trivial
  | some b => exact matchAllowedId_tokP b (hbr b rfl)

lemma vgOkP_of_wf (vgf : Option ObjectId) (hv : ∀ g ∈ vgf, g.wf = true) :
    vgOkP (vgf.map (fun g => g.hex.data)) := by
  cases vgf with
  | none => trivial
  | some g => exact wf_tokP_hex g (hv g rfl)

/-- The parse of a canonical org-form render, assuming the lazy-skip path
fails on it. -/
lemma parse_orgform (o c r : String) (br : Option String) (vgf : Option ObjectId)
    (ho : matchAllowedId o = true) (hc : matchAllowedId c = true)
    (hr : matchAllowedId r = true) (hbr : ∀ b ∈ br, matchAllowedId b = true)
    (hv : ∀ g ∈ vgf, g.wf = true)
    (hskip : g2 {} (o.data ++ ('+' :: (c.data ++ ('+' :: (r.data
      ++ brTail (br.map String.data) (vgf.map (fun g => g.hex.data)) none))))) = none) :
    g1 {} (o.data ++ ('+' :: (c.data ++ ('+' :: (r.data
        ++ brTail (br.map String.data) (vgf.map (fun g => g.hex.data)) none)))))
      = some ⟨some o, some c, some r, br, vgf.map (fun g => g.hex), none, none⟩ := by
  have hg := g1_orgform {} o.data c.data r.data (br.map String.data)
    (vgf.map (fun g => g.hex.data)) none
    (matchAllowedId_tokP o ho) (matchAllowedId_tokP c hc) (matchAllowedId_tokP r hr)
    (brOkP_of_valid br hbr) (vgOkP_of_wf vgf hv) trivial hskip
  rw [hg]
  cases br with
  | none =>
    cases vgf with
    | none => rfl
    | some g => rfl
  | some b =>
    cases vgf with
    | none => rfl
    | some g => rfl

/-- Round trip for non-legacy course identifiers in org/course/run form. -/
lemma course_roundtrip_orgform (o c r : String) (br : Option String) (vgf : Option ObjectId)
    (ho : matchAllowedId o = true) (hc : matchAllowedId c = true)
    (hr : matchAllowedId r = true) (hbr : ∀ b ∈ br, matchAllowedId b = true)
    (hv : ∀ g ∈ vgf, g.wf = true)
    (hskip : g2 {} (CourseLocator.to_string
      ⟨some o, some c, some r, br, vgf.map VersionGuid.oid, false⟩).data = none) :
    CourseLocator.from_string (CourseLocator.to_string
        ⟨some o, some c, some r, br, vgf.map VersionGuid.oid, false⟩)
      = .ok ⟨some o, some c, some r, br, vgf.map VersionGuid.oid, false⟩ := by
  have hdata := to_string_orgform o c r br vgf (matchAllowedId_ne_empty o ho)
    (matchAllowedId_ne_empty c hc) (matchAllowedId_ne_empty r hr)
    (fun b hb => matchAllowedId_ne_empty b (hbr b hb))
  rw [hdata] at hskip
  have hp : parse_url "CourseLocator" (CourseLocator.to_string
      ⟨some o, some c, some r, br, vgf.map VersionGuid.oid, false⟩)
      = .ok ⟨some o, some c, some r, br, vgf.map (fun g => g.hex), none, none⟩ := by
    unfold parse_url
    rw [hdata, parse_orgform o c r br vgf ho hc hr hbr hv hskip]
  unfold CourseLocator.from_string
  rw [hp]
  cases vgf with
  | none =>
    simp only [Bind.bind, Except.bind, Option.map_none']
    exact mk_cur_ok o c r br .vnone none ho hc hr hbr rfl
  | some g =>
    simp only [Bind.bind, Except.bind, Option.map_some']
    rw [as_object_id_wf g (hv g rfl)]
    exact mk_cur_ok o c r br (.void g) (some (.oid g)) ho hc hr hbr rfl

/-- Round trip for non-legacy version-only course identifiers. -/
lemma course_roundtrip_vonly (g : ObjectId) (hg : g.wf = true) :
    CourseLocator.from_string (CourseLocator.to_string
        ⟨none, none, none, none, some (.oid g), false⟩)
      = .ok ⟨none, none, none, none, some (.oid g), false⟩ := by
  have hdata := to_string_vonly g
  have hp : parse_url "CourseLocator" (CourseLocator.to_string
      ⟨none, none, none, none, some (.oid g), false⟩)
      = .ok ⟨none, none, none, none, some g.hex, none, none⟩ := by
    unfold parse_url
    rw [hdata, g1_vonly {} g.hex.data none (wf_tokP_hex g hg) trivial]
    rfl
  unfold CourseLocator.from_string
  rw [hp]
  simp only [Bind.bind, Except.bind]
  rw [as_object_id_wf g hg]
  exact mk_vonly_ok (.void g) (some (.oid g)) rfl rfl

/-! ## Block-usage round trip (current form) -/

lemma brTail_append_tb (br vg : Option (List Char)) (tb : Option (List Char × List Char)) :
    brTail br vg none ++ tbTail tb = brTail br vg tb := by
  cases br with
  | none =>
    cases vg with
    | none => simp [brTail, vgTail, tbTail]
    | some v => simp [brTail, vgTail, tbTail, List.append_assoc]
  | some b =>
    cases vg with
    | none => simp [brTail, vgTail, tbTail, List.append_assoc]
    | some v => simp [brTail, vgTail, tbTail, List.append_assoc]

lemma block_to_string_data (ck : CourseLocator) (t i : String) (dep : Bool) :
    (BlockUsageLocator.to_string ⟨ck, some t, .str i, dep⟩).data
      = ck.to_string.data ++ tbTail (some (t.data, i.data)) := by
  simp [BlockUsageLocator.to_string, pyUnicodeOpt, BlockRef.render, tbTail,
    String.data_append, data_plus, List.append_assoc]

/-- The parse of a canonical org-form block render, assuming the lazy-skip
path fails on it. -/
lemma parse_blockform (o c r t i : String) (br : Option String) (vgf : Option ObjectId)
    (ho : matchAllowedId o = true) (hc : matchAllowedId c = true)
    (hr : matchAllowedId r = true) (ht : matchAllowedId t = true)
    (hi : matchAllowedId i = true) (hbr : ∀ b ∈ br, matchAllowedId b = true)
    (hv : ∀ g ∈ vgf, g.wf = true)
    (hskip : g2 {} (o.data ++ ('+' :: (c.data ++ ('+' :: (r.data
      ++ brTail (br.map String.data) (vgf.map (fun g => g.hex.data))
        (some (t.data, i.data))))))) = none) :
    g1 {} (o.data ++ ('+' :: (c.data ++ ('+' :: (r.data
        ++ brTail (br.map String.data) (vgf.map (fun g => g.hex.data))
          (some (t.data, i.data)))))))
      = some ⟨some o, some c, some r, br, vgf.map (fun g => g.hex), some t, some i⟩ := by
  have hg := g1_orgform {} o.data c.data r.data (br.map String.data)
    (vgf.map (fun g => g.hex.data)) (some (t.data, i.data))
    (matchAllowedId_tokP o ho) (matchAllowedId_tokP c hc) (matchAllowedId_tokP r hr)
    (brOkP_of_valid br hbr) (vgOkP_of_wf vgf hv)
    ⟨matchAllowedId_tokP t ht, matchAllowedId_tokP i hi⟩ hskip
  rw [hg]
  cases br with
  | none => cases vgf with
    | none => rfl
    | some g => rfl
  | some b => cases vgf with
    | none => rfl
    | some g => rfl

/-- Round trip for non-legacy block-usage identifiers over an org-form
course identifier. -/
lemma block_roundtrip_orgform (o c r t i : String) (br : Option String)
    (vgf : Option ObjectId)
    (ho : matchAllowedId o = true) (hc : matchAllowedId c = true)
    (hr : matchAllowedId r = true) (ht : matchAllowedId t = true)
    (hi : matchAllowedId i = true) (hbr : ∀ b ∈ br, matchAllowedId b = true)
    (hv : ∀ g ∈ vgf, g.wf = true)
    (hskip : g2 {} (BlockUsageLocator.to_string
      ⟨⟨some o, some c, some r, br, vgf.map VersionGuid.oid, false⟩,
        some t, .str i, false⟩).data = none) :
    BlockUsageLocator.from_string (BlockUsageLocator.to_string
        ⟨⟨some o, some c, some r, br, vgf.map VersionGuid.oid, false⟩,
          some t, .str i, false⟩)
      = .ok ⟨⟨some o, some c, some r, br, vgf.map VersionGuid.oid, false⟩,
          some t, .str i, false⟩ := by
  have hcourse := to_string_orgform o c r br vgf (matchAllowedId_ne_empty o ho)
    (matchAllowedId_ne_empty c hc) (matchAllowedId_ne_empty r hr)
    (fun b hb => matchAllowedId_ne_empty b (hbr b hb))
  have hdata : (BlockUsageLocator.to_string
      ⟨⟨some o, some c, some r, br, vgf.map VersionGuid.oid, false⟩,
        some t, .str i, false⟩).data
      = o.data ++ ('+' :: (c.data ++ ('+' :: (r.data
          ++ brTail (br.map String.data) (vgf.map (fun g => g.hex.data))
            (some (t.data, i.data)))))) := by
    rw [block_to_string_data, hcourse]
    simp only [List.append_assoc, List.cons_append, brTail_append_tb]
  rw [hdata] at hskip
  have hg := parse_blockform o c r t i br vgf ho hc hr ht hi hbr hv hskip
  have hp1 : parse_url "CourseLocator" (BlockUsageLocator.to_string
      ⟨⟨some o, some c, some r, br, vgf.map VersionGuid.oid, false⟩,
        some t, .str i, false⟩)
      = .ok ⟨some o, some c, some r, br, vgf.map (fun g => g.hex), some t, some i⟩ := by
    unfold parse_url
    rw [hdata, hg]
  have hp2 : parse_url "BlockUsageLocator" (BlockUsageLocator.to_string
      ⟨⟨some o, some c, some r, br, vgf.map VersionGuid.oid, false⟩,
        some t, .str i, false⟩)
      = .ok ⟨some o, some c, some r, br, vgf.map (fun g => g.hex), some t, some i⟩ := by
    unfold parse_url
    rw [hdata, hg]
  have hck : CourseLocator.from_string (BlockUsageLocator.to_string
      ⟨⟨some o, some c, some r, br, vgf.map VersionGuid.oid, false⟩,
        some t, .str i, false⟩)
      = .ok ⟨some o, some c, some r, br, vgf.map VersionGuid.oid, false⟩ := by
    unfold CourseLocator.from_string
    rw [hp1]
    cases vgf with
    | none =>
      simp only [Bind.bind, Except.bind, Option.map_none']
      exact mk_cur_ok o c r br .vnone none ho hc hr hbr rfl
    | some g =>
      simp only [Bind.bind, Except.bind, Option.map_some']
      rw [as_object_id_wf g (hv g rfl)]
      exact mk_cur_ok o c r br (.void g) (some (.oid g)) ho hc hr hbr rfl
  unfold BlockUsageLocator.from_string
  rw [hck, hp2]
  simp only [Bind.bind, Except.bind]
  unfold mkBlockUsageLocator
  have hpb : parse_block_ref (.str i) false = .ok (.str i) := by
    simp only [parse_block_ref, hi, Bool.false_and, Bool.or_false, if_pos]
  rw [hpb]
  rfl

/-- Round trip for non-legacy block-usage identifiers over a version-only
course identifier (here the engine's first path is the successful one, so no
side condition is needed). -/
lemma block_roundtrip_vonly (g : ObjectId) (t i : String)
    (hg : g.wf = true) (ht : matchAllowedId t = true) (hi : matchAllowedId i = true) :
    BlockUsageLocator.from_string (BlockUsageLocator.to_string
        ⟨⟨none, none, none, none, some (.oid g), false⟩, some t, .str i, false⟩)
      = .ok ⟨⟨none, none, none, none, some (.oid g), false⟩, some t, .str i, false⟩ := by
  have hdata : (BlockUsageLocator.to_string
      ⟨⟨none, none, none, none, some (.oid g), false⟩, some t, .str i, false⟩).data
      = "version+".data ++ (g.hex.data ++ tbTail (some (t.data, i.data))) := by
    rw [block_to_string_data, to_string_vonly]
    simp [tbTail, List.append_assoc]
  have hg1 : g1 {} (BlockUsageLocator.to_string
      ⟨⟨none, none, none, none, some (.oid g), false⟩, some t, .str i, false⟩).data
      = some ⟨none, none, none, none, some g.hex, some t, some i⟩ := by
    rw [hdata, g1_vonly {} g.hex.data (some (t.data, i.data)) (wf_tokP_hex g hg)
      ⟨matchAllowedId_tokP t ht, matchAllowedId_tokP i hi⟩]
    rfl
  have hp1 : parse_url "CourseLocator" (BlockUsageLocator.to_string
      ⟨⟨none, none, none, none, some (.oid g), false⟩, some t, .str i, false⟩)
      = .ok ⟨none, none, none, none, some g.hex, some t, some i⟩ := by
    unfold parse_url
    rw [hg1]
  have hp2 : parse_url "BlockUsageLocator" (BlockUsageLocator.to_string
      ⟨⟨none, none, none, none, some (.oid g), false⟩, some t, .str i, false⟩)
      = .ok ⟨none, none, none, none, some g.hex, some t, some i⟩ := by
    unfold parse_url
    rw [hg1]
  have hck : CourseLocator.from_string (BlockUsageLocator.to_string
      ⟨⟨none, none, none, none, some (.oid g), false⟩, some t, .str i, false⟩)
      = .ok ⟨none, none, none, none, some (.oid g), false⟩ := by
    unfold CourseLocator.from_string
    rw [hp1]
    simp only [Bind.bind, Except.bind]
    rw [as_object_id_wf g hg]
    exact mk_vonly_ok (.void g) (some (.oid g)) rfl rfl
  unfold BlockUsageLocator.from_string
  rw [hck, hp2]
  simp only [Bind.bind, Except.bind]
  unfold mkBlockUsageLocator
  have hpb : parse_block_ref (.str i) false = .ok (.str i) := by
    simp only [parse_block_ref, hi, Bool.false_and, Bool.or_false, if_pos]
  rw [hpb]
  rfl

/-! ## Definition-identifier round trip -/

lemma def_roundtrip (g : ObjectId) (t : String) (hg : g.wf = true)
    (ht : matchAllowedId t = true) :
    DefinitionLocator.from_string (DefinitionLocator.to_string ⟨.oid g, some t⟩)
      = .ok ⟨.oid g, some t⟩ := by
  have hdata : (DefinitionLocator.to_string ⟨.oid g, some t⟩).data
      = g.hex.data ++ ("+type+".data ++ t.data) := by
    simp [DefinitionLocator.to_string, DefId.render, pyUnicodeOpt, String.data_append,
      List.append_assoc]
  have hbt : matchTokR allowedChar t.data
      (fun bt r3 => if r3.isEmpty then some (String.mk g.hex.data, String.mk bt) else none)
      = some (g.hex, t) := by
    have := matchTokR_first allowedChar t.data []
      (fun bt r3 => if r3.isEmpty then some (String.mk g.hex.data, String.mk bt) else none)
      (g.hex, t) (matchAllowedId_tokP t ht).1 (matchAllowedId_tokP t ht).2 trivial rfl
    rw [List.append_nil] at this
    exact this
  have hre : defURLRe (DefinitionLocator.to_string ⟨.oid g, some t⟩).data
      = some (g.hex, t) := by
    rw [hdata]
    unfold defURLRe
    apply matchTokR_first hexChar g.hex.data _ _ _ (wf_tokP_hex g hg).1 (wf_tokP_hex g hg).2
    · show hexChar '+' = false
      decide
    · rw [litIC_self_append]
      exact hbt
  unfold DefinitionLocator.from_string
  rw [hre]
  simp only [Bind.bind, Except.bind]
  rw [as_object_id_wf g hg]
  rfl

/-! ## Legacy round trips -/

/-- Shared with C5: legacy parse of a canonical three-part string. -/
lemma legacy_parse_3parts (a b c : String) (ha : legacyTok a = true)
    (hb : legacyTok b = true) (hc : legacyTok c = true) :
    CourseLocator.from_deprecated_string (a ++ "/" ++ b ++ "/" ++ c)
      = .ok ⟨some a, some b, some c, none, none, true⟩ := by
  have hsl : legacyChar '/' = false := by decide
  have hna : ∀ ch ∈ a.data, ch ≠ '/' := legacyTok_ne_char a ha '/' hsl
  have hnb : ∀ ch ∈ b.data, ch ≠ '/' := legacyTok_ne_char b hb '/' hsl
  have hnc : ∀ ch ∈ c.data, ch ≠ '/' := legacyTok_ne_char c hc '/' hsl
  have hdata : (a ++ "/" ++ b ++ "/" ++ c).data
      = a.data ++ '/' :: (b.data ++ '/' :: c.data) := by
    simp [String.data_append]
  have hcount : (a ++ "/" ++ b ++ "/" ++ c).data.count '/' = 2 := by
    rw [hdata, List.count_append, count_nosep '/' a.data hna, List.count_cons,
      List.count_append, count_nosep '/' b.data hnb, List.count_cons,
      count_nosep '/' c.data hnc]
    simp
  have hsplit : splitChL '/' (a ++ "/" ++ b ++ "/" ++ c).data
      = [a.data, b.data, c.data] := by
    rw [hdata, splitChL_append_sep '/' a.data _ hna,
      splitChL_append_sep '/' b.data _ hnb, splitChL_nosep '/' c.data hnc]
  unfold CourseLocator.from_deprecated_string
  rw [if_neg (fun hne => hne hcount), hsplit]
  exact mk_dep_ok a b (some c) none ha hb (forall_mem_some c hc) forall_mem_none

/-- Legacy course round trip: deprecated render then deprecated parse is the
identity on legacy course identifiers with run present and branch and version
absent. -/
lemma legacy_course_roundtrip (o c r : String) (ho : legacyTok o = true)
    (hc : legacyTok c = true) (hr : legacyTok r = true) :
    CourseLocator.to_deprecated_string ⟨some o, some c, some r, none, none, true⟩
      = .ok (o ++ "/" ++ c ++ "/" ++ r)
    ∧ CourseLocator.from_deprecated_string (o ++ "/" ++ c ++ "/" ++ r)
      = .ok ⟨some o, some c, some r, none, none, true⟩ :=
  ⟨rfl, legacy_parse_3parts o c r ho hc hr⟩

lemma legacyTok_tokP_ne (s : String) (h : legacyTok s = true) (b : Char)
    (hb : legacyChar b = false) : tokP (fun ch => ch ≠ b) s.data :=
  ⟨legacyTok_nonempty s h,
   fun ch hch => decide_eq_true (legacyTok_ne_char s h b hb ch hch)⟩

/-- `DEPRECATED_URL_RE` on a canonical `i4x://org/course/category/name[@rev]`
string of legacy tokens. -/
lemma depURLRe_canonical (o c t i : String) (br : Option String)
    (ho : legacyTok o = true) (hc : legacyTok c = true) (ht : legacyTok t = true)
    (hi : legacyTok i = true) (hbr : ∀ b ∈ br, legacyTok b = true) :
    depURLRe ('i' :: '4' :: 'x' :: ':' :: '/' :: '/' ::
        (o.data ++ '/' :: (c.data ++ '/' :: (t.data ++ '/' ::
          (i.data ++ br.elim [] (fun b => '@' :: b.data))))))
      = some ⟨o, c, t, i, br⟩ := by
  have hslash : legacyChar '/' = false := by decide
  have hat : legacyChar '@' = false := by decide
  have htail : depTail o.data c.data t.data
      (i.data ++ br.elim [] (fun b => '@' :: b.data)) = some ⟨o, c, t, i, br⟩ := by
    unfold depTail
    apply matchTokR_first _ i.data _ _ _ (legacyTok_tokP_ne i hi '@' hat).1
      (legacyTok_tokP_ne i hi '@' hat).2
    · cases br with
      | none => trivial
      | some b =>
        show decide ('@' ≠ '@') = false
        decide
    · cases br with
      | none => rfl
      | some b =>
        show orElseO (matchTokR (fun ch => ch ≠ '/') b.data _) _ = _
        have := matchTokR_first (fun ch => ch ≠ '/') b.data []
          (fun rv _ => some (⟨String.mk o.data, String.mk c.data, String.mk t.data,
            String.mk i.data, some (String.mk rv)⟩ : DepGroups))
          (⟨o, c, t, i, some b⟩ : DepGroups)
          (legacyTok_tokP_ne b (hbr b rfl) '/' hslash).1
          (legacyTok_tokP_ne b (hbr b rfl) '/' hslash).2 trivial rfl
        rw [List.append_nil] at this
        rw [this]
        rfl
  have hbody : ∀ rest2, rest2 = o.data ++ '/' :: (c.data ++ '/' :: (t.data ++ '/' ::
      (i.data ++ br.elim [] (fun b => '@' :: b.data)))) →
      matchTokR (fun ch => ch ≠ '/') rest2 (fun oc r2 =>
        match r2 with
        | '/' :: r3 =>
          matchTokR (fun ch => ch ≠ '/') r3 (fun cc r4 =>
            match r4 with
            | '/' :: r5 =>
              matchTokR (fun ch => ch ≠ '/') r5 (fun cat r6 =>
                match r6 with
                | '/' :: r7 => depTail oc cc cat r7
                | _ => none)
            | _ => none)
        | _ => none) = some ⟨o, c, t, i, br⟩ := by
    intro rest2 hrest2
    subst hrest2
    apply matchTokR_first _ o.data _ _ _ (legacyTok_tokP_ne o ho '/' hslash).1
      (legacyTok_tokP_ne o ho '/' hslash).2
    · show decide ('/' ≠ '/') = false
      decide
    · apply matchTokR_first _ c.data _ _ _ (legacyTok_tokP_ne c hc '/' hslash).1
        (legacyTok_tokP_ne c hc '/' hslash).2
      · show decide ('/' ≠ '/') = false
        decide
      · apply matchTokR_first _ t.data _ _ _ (legacyTok_tokP_ne t ht '/' hslash).1
          (legacyTok_tokP_ne t ht '/' hslash).2
        · show decide ('/' ≠ '/') = false
          decide
        · exact htail
  unfold depURLRe depHead
  have hhead := matchTokR_first (fun ch => ch ≠ ':' && ch ≠ '/') ['i', '4', 'x']
    (':' :: '/' :: '/' :: (o.data ++ '/' :: (c.data ++ '/' :: (t.data ++ '/' ::
      (i.data ++ br.elim [] (fun b => '@' :: b.data))))))
    (fun _ r1 =>
      match r1 with
      | ':' :: '/' :: r2 =>
        (match r2 with
         | '/' :: r3 =>
           orElseO
             (matchTokR (fun ch => ch ≠ '/') r3 (fun oc r2 =>
               match r2 with
               | '/' :: r3 =>
                 matchTokR (fun ch => ch ≠ '/') r3 (fun cc r4 =>
                   match r4 with
                   | '/' :: r5 =>
                     matchTokR (fun ch => ch ≠ '/') r5 (fun cat r6 =>
                       match r6 with
                       | '/' :: r7 => depTail oc cc cat r7
                       | _ => none)
                   | _ => none)
               | _ => none))
             (matchTokR (fun ch => ch ≠ '/') r2 (fun oc r2 =>
               match r2 with
               | '/' :: r3 =>
                 matchTokR (fun ch => ch ≠ '/') r3 (fun cc r4 =>
                   match r4 with
                   | '/' :: r5 =>
                     matchTokR (fun ch => ch ≠ '/') r5 (fun cat r6 =>
                       match r6 with
                       | '/' :: r7 => depTail oc cc cat r7
                       | _ => none)
                   | _ => none)
               | _ => none))
         | _ =>
           matchTokR (fun ch => ch ≠ '/') r2 (fun oc r2 =>
             match r2 with
             | '/' :: r3 =>
               matchTokR (fun ch => ch ≠ '/') r3 (fun cc r4 =>
                 match r4 with
                 | '/' :: r5 =>
                   matchTokR (fun ch => ch ≠ '/') r5 (fun cat r6 =>
                     match r6 with
                     | '/' :: r7 => depTail oc cc cat r7
                     | _ => none)
                 | _ => none)
             | _ => none))
      | _ => none)
    ⟨o, c, t, i, br⟩ (by decide) (by decide)
    (show (decide (':' ≠ ':') && decide (':' ≠ '/')) = false by decide)
    (by
      show orElseO _ _ = _
      rw [hbody _ rfl]
      rfl)
  rw [show ('i' :: '4' :: 'x' :: ':' :: '/' :: '/' ::
      (o.data ++ '/' :: (c.data ++ '/' :: (t.data ++ '/' ::
        (i.data ++ br.elim [] (fun b => '@' :: b.data))))))
      = ['i', '4', 'x'] ++ (':' :: '/' :: '/' :: (o.data ++ '/' :: (c.data ++ '/' ::
          (t.data ++ '/' :: (i.data ++ br.elim [] (fun b => '@' :: b.data))))))
    from rfl]
  rw [hhead]
  rfl

lemma i4x_data : "i4x://".data = ['i', '4', 'x', ':', '/', '/'] := rfl

lemma slash_data : "/".data = ['/'] := rfl

lemma at_data : "@".data = ['@'] := rfl

lemma block_to_dep_string_data (o c t i : String) (br : Option String)
    (hbrne : ∀ b ∈ br, b ≠ "") :
    (BlockUsageLocator.to_deprecated_string
        ⟨⟨some o, some c, none, br, none, true⟩, some t, .str i, true⟩).data
      = 'i' :: '4' :: 'x' :: ':' :: '/' :: '/' ::
          (o.data ++ '/' :: (c.data ++ '/' :: (t.data ++ '/' ::
            (i.data ++ br.elim [] (fun b => '@' :: b.data))))) := by
  cases br with
  | none =>
    simp [BlockUsageLocator.to_deprecated_string, pyUnicodeOpt, BlockRef.render,
      optTruthy, String.data_append, i4x_data, slash_data, List.append_assoc]
  | some b =>
    have hbne : b ≠ "" := hbrne b rfl
    simp [BlockUsageLocator.to_deprecated_string, pyUnicodeOpt, BlockRef.render,
      optTruthy, hbne, String.data_append, i4x_data, slash_data, at_data,
      List.append_assoc]

/-- Legacy block-usage round trip: deprecated render then deprecated parse is
the identity on legacy block-usage identifiers whose course key has run and
version absent. -/
lemma legacy_block_roundtrip (o c t i : String) (br : Option String)
    (ho : legacyTok o = true) (hc : legacyTok c = true) (ht : legacyTok t = true)
    (hi : legacyTok i = true) (hbr : ∀ b ∈ br, legacyTok b = true) :
    BlockUsageLocator.from_deprecated_string (BlockUsageLocator.to_deprecated_string
        ⟨⟨some o, some c, none, br, none, true⟩, some t, .str i, true⟩)
      = .ok ⟨⟨some o, some c, none, br, none, true⟩, some t, .str i, true⟩ := by
  have hdata := block_to_dep_string_data o c t i br
    (fun b hb => by
      rw [str_ne_empty_iff]
      exact legacyTok_nonempty b (hbr b hb))
  have hre : depURLRe (BlockUsageLocator.to_deprecated_string
      ⟨⟨some o, some c, none, br, none, true⟩, some t, .str i, true⟩).data
      = some ⟨o, c, t, i, br⟩ := by
    rw [hdata]
    exact depURLRe_canonical o c t i br ho hc ht hi hbr
  unfold BlockUsageLocator.from_deprecated_string
  rw [hre]
  have hck : mkCourseLocator (some o) (some c) none br .vnone true
      = .ok ⟨some o, some c, none, br, none, true⟩ :=
    mk_dep_ok o c none br ho hc forall_mem_none hbr
  simp only [Bind.bind, Except.bind]
  rw [hck]
  unfold mkBlockUsageLocator
  have hpb : parse_block_ref (.str i) true = .ok (.str i) := by
    simp only [parse_block_ref, Bool.true_and, legacyTok_dep i hi, Bool.or_true, if_pos]
  simp only [Bind.bind, Except.bind]
  rw [hpb]
  rfl

/-! ## Claim theorems -/

/-- C1 counterexample: a validly constructed non-legacy course identifier
with org present but course/run absent and a version set renders without the
org (rendering emits `org+course+run` only when course and run are truthy),
so parsing the render yields a different identifier. -/
theorem C1_counterexample :
    mkCourseLocator (some "a") none none none (.vstr "519665f6223ebd6980884f2b") false
      = .ok ⟨some "a", none, none, none,
          some (.oid ⟨"519665f6223ebd6980884f2b"⟩), false⟩
    ∧ CourseLocator.from_string (CourseLocator.to_string
        ⟨some "a", none, none, none, some (.oid ⟨"519665f6223ebd6980884f2b"⟩), false⟩)
      = .ok ⟨none, none, none, none, some (.oid ⟨"519665f6223ebd6980884f2b"⟩), false⟩
    ∧ (⟨none, none, none, none, some (.oid ⟨"519665f6223ebd6980884f2b"⟩), false⟩
        : CourseLocator)
      ≠ ⟨some "a", none, none, none, some (.oid ⟨"519665f6223ebd6980884f2b"⟩), false⟩ :=
  ⟨by decide, by decide, by decide⟩

/-- C1 (amended): `parse(render(x)) == x` holds on the classes of identifiers
whose renders are faithful, namely
(1) non-legacy course identifiers with org, course, run all present (valid
tokens, branch/version optional and valid) whose render is not already
matched by the branch/version/type/block tail of the grammar alone (the lazy
org group makes the engine try that path first — e.g. org `"branch"` with a
course ending in `"version"` and an all-hex run breaks the round trip);
(2) non-legacy version-only course identifiers;
(3) and (4) non-legacy block-usage identifiers (present block type, string
block id) over course identifiers of classes (1) and (2);
(5) definition identifiers whose definition id is a typed version value;
and `legacy_parse(legacy_render(x)) == x` holds for
(6) legacy course identifiers with run present and branch/version absent, and
(7) legacy block-usage identifiers whose course key has run and version
absent.  (Outside these classes rendering drops or garbles fields — see the
counterexample — so the round trip fails.) -/
theorem C1_roundtrip_amended :
    (∀ (o c r : String) (br : Option String) (vgf : Option ObjectId),
      matchAllowedId o = true → matchAllowedId c = true → matchAllowedId r = true →
      (∀ b ∈ br, matchAllowedId b = true) → (∀ g ∈ vgf, g.wf = true) →
      g2 {} (CourseLocator.to_string
        ⟨some o, some c, some r, br, vgf.map VersionGuid.oid, false⟩).data = none →
      CourseLocator.from_string (CourseLocator.to_string
          ⟨some o, some c, some r, br, vgf.map VersionGuid.oid, false⟩)
        = .ok ⟨some o, some c, some r, br, vgf.map VersionGuid.oid, false⟩)
    ∧ (∀ g : ObjectId, g.wf = true →
      CourseLocator.from_string (CourseLocator.to_string
          ⟨none, none, none, none, some (.oid g), false⟩)
        = .ok ⟨none, none, none, none, some (.oid g), false⟩)
    ∧ (∀ (o c r t i : String) (br : Option String) (vgf : Option ObjectId),
      matchAllowedId o = true → matchAllowedId c = true → matchAllowedId r = true →
      matchAllowedId t = true → matchAllowedId i = true →
      (∀ b ∈ br, matchAllowedId b = true) → (∀ g ∈ vgf, g.wf = true) →
      g2 {} (BlockUsageLocator.to_string
        ⟨⟨some o, some c, some r, br, vgf.map VersionGuid.oid, false⟩,
          some t, .str i, false⟩).data = none →
      BlockUsageLocator.from_string (BlockUsageLocator.to_string
          ⟨⟨some o, some c, some r, br, vgf.map VersionGuid.oid, false⟩,
            some t, .str i, false⟩)
        = .ok ⟨⟨some o, some c, some r, br, vgf.map VersionGuid.oid, false⟩,
            some t, .str i, false⟩)
    ∧ (∀ (g : ObjectId) (t i : String), g.wf = true →
      matchAllowedId t = true → matchAllowedId i = true →
      BlockUsageLocator.from_string (BlockUsageLocator.to_string
          ⟨⟨none, none, none, none, some (.oid g), false⟩, some t, .str i, false⟩)
        = .ok ⟨⟨none, none, none, none, some (.oid g), false⟩, some t, .str i, false⟩)
    ∧ (∀ (g : ObjectId) (t : String), g.wf = true → matchAllowedId t = true →
      DefinitionLocator.from_string (DefinitionLocator.to_string ⟨.oid g, some t⟩)
        = .ok ⟨.oid g, some t⟩)
    ∧ (∀ o c r : String, legacyTok o = true → legacyTok c = true → legacyTok r = true →
      CourseLocator.to_deprecated_string ⟨some o, some c, some r, none, none, true⟩
        = .ok (o ++ "/" ++ c ++ "/" ++ r)
      ∧ CourseLocator.from_deprecated_string (o ++ "/" ++ c ++ "/" ++ r)
        = .ok ⟨some o, some c, some r, none, none, true⟩)
    ∧ (∀ (o c t i : String) (br : Option String),
      legacyTok o = true → legacyTok c = true → legacyTok t = true →
      legacyTok i = true → (∀ b ∈ br, legacyTok b = true) →
      BlockUsageLocator.from_deprecated_string (BlockUsageLocator.to_deprecated_string
          ⟨⟨some o, some c, none, br, none, true⟩, some t, .str i, true⟩)
        = .ok ⟨⟨some o, some c, none, br, none, true⟩, some t, .str i, true⟩) :=
  ⟨fun o c r br vgf ho hc hr hbr hv hskip =>
    course_roundtrip_orgform o c r br vgf ho hc hr hbr hv hskip,
   fun g hg => course_roundtrip_vonly g hg,
   fun o c r t i br vgf ho hc hr ht hi hbr hv hskip =>
    block_roundtrip_orgform o c r t i br vgf ho hc hr ht hi hbr hv hskip,
   fun g t i hg ht hi => block_roundtrip_vonly g t i hg ht hi,
   fun g t hg ht => def_roundtrip g t hg ht,
   fun o c r ho hc hr => legacy_course_roundtrip o c r ho hc hr,
   fun o c t i br ho hc ht hi hbr => legacy_block_roundtrip o c t i br ho hc ht hi hbr⟩

/-- C1 witness: each class of the amended round-trip theorem evaluated at a
concrete identifier. -/
theorem C1_roundtrip_amended_witness :
    CourseLocator.from_string (CourseLocator.to_string
        ⟨some "mit.eecs", some "6002x", some "T1", some "published",
          some (.oid ⟨"519665f6223ebd6980884f2b"⟩), false⟩)
      = .ok ⟨some "mit.eecs", some "6002x", some "T1", some "published",
          some (.oid ⟨"519665f6223ebd6980884f2b"⟩), false⟩
    ∧ CourseLocator.from_string (CourseLocator.to_string
        ⟨none, none, none, none, some (.oid ⟨"519665f6223ebd6980884f2b"⟩), false⟩)
      = .ok ⟨none, none, none, none, some (.oid ⟨"519665f6223ebd6980884f2b"⟩), false⟩
    ∧ BlockUsageLocator.from_string (BlockUsageLocator.to_string
        ⟨⟨some "mit", some "6002x", some "T1", none, none, false⟩,
          some "problem", .str "prob1", false⟩)
      = .ok ⟨⟨some "mit", some "6002x", some "T1", none, none, false⟩,
          some "problem", .str "prob1", false⟩
    ∧ BlockUsageLocator.from_string (BlockUsageLocator.to_string
        ⟨⟨none, none, none, none, some (.oid ⟨"519665f6223ebd6980884f2b"⟩), false⟩,
          some "problem", .str "prob1", false⟩)
      = .ok ⟨⟨none, none, none, none, some (.oid ⟨"519665f6223ebd6980884f2b"⟩), false⟩,
          some "problem", .str "prob1", false⟩
    ∧ DefinitionLocator.from_string (DefinitionLocator.to_string
        ⟨.oid ⟨"519665f6223ebd6980884f2b"⟩, some "problem"⟩)
      = .ok ⟨.oid ⟨"519665f6223ebd6980884f2b"⟩, some "problem"⟩
    ∧ (CourseLocator.to_deprecated_string ⟨some "org", some "course", some "run", none, none, true⟩
        = .ok ("org" ++ "/" ++ "course" ++ "/" ++ "run")
      ∧ CourseLocator.from_deprecated_string ("org" ++ "/" ++ "course" ++ "/" ++ "run")
        = .ok ⟨some "org", some "course", some "run", none, none, true⟩)
    ∧ BlockUsageLocator.from_deprecated_string (BlockUsageLocator.to_deprecated_string
        ⟨⟨some "mit", some "6002x", none, some "published", none, true⟩,
          some "problem", .str "prob1", true⟩)
      = .ok ⟨⟨some "mit", some "6002x", none, some "published", none, true⟩,
          some "problem", .str "prob1", true⟩ :=
  ⟨C1_roundtrip_amended.1 "mit.eecs" "6002x" "T1" (some "published")
      (some ⟨"519665f6223ebd6980884f2b"⟩) (by decide) (by decide) (by decide)
      (forall_mem_some _ (by decide)) (forall_mem_some _ (by decide)) (by decide),
   C1_roundtrip_amended.2.1 ⟨"519665f6223ebd6980884f2b"⟩ (by decide),
   C1_roundtrip_amended.2.2.1 "mit" "6002x" "T1" "problem" "prob1" none none
      (by decide) (by decide) (by decide) (by decide) (by decide)
      forall_mem_none forall_mem_none (by decide),
   C1_roundtrip_amended.2.2.2.1 ⟨"519665f6223ebd6980884f2b"⟩ "problem" "prob1"
      (by decide) (by decide) (by decide),
   C1_roundtrip_amended.2.2.2.2.1 ⟨"519665f6223ebd6980884f2b"⟩ "problem"
      (by decide) (by decide),
   C1_roundtrip_amended.2.2.2.2.2.1 "org" "course" "run" (by decide) (by decide)
      (by decide),
   C1_roundtrip_amended.2.2.2.2.2.2 "mit" "6002x" "problem" "prob1" (some "published")
      (by decide) (by decide) (by decide) (by decide) (forall_mem_some _ (by decide))⟩

/-- C2: on this code, parsing
`"mit.eecs+6002x+branch+published+version+519665f6223ebd6980884f2b"` raises
`InvalidKeyError` — `URL_RE` makes `run` mandatory whenever org and course are
present, so the string (valid per the spec and the class's own docstring
examples) does not match the grammar.  This evaluates the code at the failing
input. -/
theorem C2_parse_example_raises :
    CourseLocator.from_string "mit.eecs+6002x+branch+published+version+519665f6223ebd6980884f2b"
      = .error (.invalidKey "CourseLocator"
          (.str "mit.eecs+6002x+branch+published+version+519665f6223ebd6980884f2b")) := by
  decide

/-- C3 counterexample: a validly constructed course identifier with a version
loses that version under `for_branch` — the claim's "version identifier ...
unchanged" is false (the source clears it: "also version agnostic"). -/
theorem C3_counterexample :
    mkCourseLocator (some "a") (some "b") (some "c") none
        (.vstr "519665f6223ebd6980884f2b") false
      = .ok ⟨some "a", some "b", some "c", none,
          some (.oid ⟨"519665f6223ebd6980884f2b"⟩), false⟩
    ∧ CourseLocator.for_branch
        ⟨some "a", some "b", some "c", none,
          some (.oid ⟨"519665f6223ebd6980884f2b"⟩), false⟩ (some "draft")
      = .ok ⟨some "a", some "b", some "c", some "draft", none, false⟩
    ∧ (some (VersionGuid.oid ⟨"519665f6223ebd6980884f2b"⟩) : Option VersionGuid) ≠ none := by
  refine ⟨by decide, by decide, by decide⟩

/-- C3 (amended): `for_branch b` on a non-legacy identifier with org, course
and run present and `b` a valid token returns a new identifier with branch
`b`, org/course/run unchanged, the version identifier cleared and the
legacy-mode flag reset to false; on an identifier whose org is unset it fails
with the invalid-key error. -/
theorem C3_for_branch_amended :
    (∀ (x : CourseLocator) (b : Option String), x.org = none →
      x.for_branch b = .error (.invalidKey "CourseLocator"
        (.str "Branches must have full course ids not just versions")))
    ∧ (∀ (o c r b : String) (brOld : Option String) (vg : Option VersionGuid),
        matchAllowedId o = true → matchAllowedId c = true → matchAllowedId r = true →
        matchAllowedId b = true →
        CourseLocator.for_branch ⟨some o, some c, some r, brOld, vg, false⟩ (some b)
          = .ok ⟨some o, some c, some r, some b, none, false⟩) := by
  constructor
  · intro x b hx
    simp [CourseLocator.for_branch, hx]
  · intro o c r b brOld vg ho hc hr hb
    simp only [CourseLocator.for_branch, Option.isNone_some, Bool.false_eq_true, if_false]
    exact mk_cur_ok o c r (some b) .vnone none ho hc hr
      (forall_mem_some b hb) rfl

/-- C3 witness. -/
theorem C3_for_branch_amended_witness :
    CourseLocator.for_branch ⟨none, none, none, none,
        some (.oid ⟨"519665f6223ebd6980884f2b"⟩), false⟩ (some "draft")
      = .error (.invalidKey "CourseLocator"
          (.str "Branches must have full course ids not just versions"))
    ∧ CourseLocator.for_branch ⟨some "o", some "c", some "r", none, none, false⟩ (some "draft")
      = .ok ⟨some "o", some "c", some "r", some "draft", none, false⟩ :=
  ⟨C3_for_branch_amended.1 _ (some "draft") rfl,
   C3_for_branch_amended.2 "o" "c" "r" "draft" none none (by decide) (by decide)
     (by decide) (by decide)⟩

/-- C4 counterexample: the claim says version-agnostic derivation never
fails, but on a validly constructed version-only identifier it raises the
invalid-key error (it rebuilds with `version_guid=None`, violating the
constructor invariant). -/
theorem C4_counterexample :
    mkCourseLocator none none none none (.vstr "519665f6223ebd6980884f2b") false
      = .ok ⟨none, none, none, none, some (.oid ⟨"519665f6223ebd6980884f2b"⟩), false⟩
    ∧ CourseLocator.version_agnostic
        ⟨none, none, none, none, some (.oid ⟨"519665f6223ebd6980884f2b"⟩), false⟩
      = .error (.invalidKey "CourseLocator"
          (.str "Either version_guid or org, course, and run should be set")) :=
  ⟨by decide, by decide⟩

/-- C4 (amended): `version_agnostic` on an identifier with org, course and
run present (valid tokens) returns a copy with the version cleared,
org/course/run/branch unchanged and the legacy-mode flag reset to false; on a
version-only identifier it fails with the invalid-key error. -/
theorem C4_version_agnostic_amended :
    (∀ (o c r : String) (br : Option String) (vg : Option VersionGuid) (dep : Bool),
      matchAllowedId o = true → matchAllowedId c = true → matchAllowedId r = true →
      (∀ b ∈ br, matchAllowedId b = true) →
      CourseLocator.version_agnostic ⟨some o, some c, some r, br, vg, dep⟩
        = .ok ⟨some o, some c, some r, br, none, false⟩)
    ∧ (∀ vg : Option VersionGuid,
        CourseLocator.version_agnostic ⟨none, none, none, none, vg, false⟩
          = .error (.invalidKey "CourseLocator"
              (.str "Either version_guid or org, course, and run should be set"))) := by
  constructor
  · intro o c r br vg dep ho hc hr hbr
    exact mk_cur_ok o c r br .vnone none ho hc hr hbr rfl
  · intro vg
    rfl

/-- C4 witness. -/
theorem C4_version_agnostic_amended_witness :
    CourseLocator.version_agnostic ⟨some "o", some "c", some "r", none, none, true⟩
      = .ok ⟨some "o", some "c", some "r", none, none, false⟩ :=
  C4_version_agnostic_amended.1 "o" "c" "r" none none true (by decide) (by decide)
    (by decide) forall_mem_none

/-- C5 (confirmed): legacy course parsing accepts exactly three
`/`-separated parts: any other part count raises the invalid-key error, and a
3-part string of valid legacy tokens constructs a legacy-mode identifier with
those org, course and run. -/
theorem C5_legacy_parse :
    (∀ s : String, s.data.count '/' ≠ 2 →
      CourseLocator.from_deprecated_string s
        = .error (.invalidKey "CourseLocator" (.str s)))
    ∧ (∀ a b c : String, legacyTok a = true → legacyTok b = true → legacyTok c = true →
      CourseLocator.from_deprecated_string (a ++ "/" ++ b ++ "/" ++ c)
        = .ok ⟨some a, some b, some c, none, none, true⟩) := by
  constructor
  · intro s h
    simp [CourseLocator.from_deprecated_string, h]
  · intro a b c ha hb hc
    exact legacy_parse_3parts a b c ha hb hc

/-- C5 witness. -/
theorem C5_legacy_parse_witness :
    CourseLocator.from_deprecated_string "org/course"
      = .error (.invalidKey "CourseLocator" (.str "org/course"))
    ∧ CourseLocator.from_deprecated_string ("org" ++ "/" ++ "course" ++ "/" ++ "run")
      = .ok ⟨some "org", some "course", some "run", none, none, true⟩ :=
  ⟨C5_legacy_parse.1 "org/course" (by decide),
   C5_legacy_parse.2 "org" "course" "run" (by decide) (by decide) (by decide)⟩

/-- C6 (confirmed): constructing a non-legacy course identifier with all of
org/course/run absent and no version fails with the invalid-key error;
constructing with org+course+run present (valid tokens) and a coercible
version string succeeds and preserves both the triple and the (coerced)
version identifier. -/
theorem C6_invariant :
    mkCourseLocator none none none none .vnone false
      = .error (.invalidKey "CourseLocator"
          (.str "Either version_guid or org, course, and run should be set"))
    ∧ (∀ (o c r v : String) (br : Option String) (ov : ObjectId),
        matchAllowedId o = true → matchAllowedId c = true → matchAllowedId r = true →
        (∀ b ∈ br, matchAllowedId b = true) → asObjectId v = some ov →
        mkCourseLocator (some o) (some c) (some r) br (.vstr v) false
          = .ok ⟨some o, some c, some r, br, some (.oid ov), false⟩) := by
  constructor
  · decide
  · intro o c r v br ov ho hc hr hbr hv
    exact mk_cur_ok o c r br (.vstr v) (some (.oid ov)) ho hc hr hbr
      (coerce_vstr_ok v ov hv)

/-- C6 witness. -/
theorem C6_invariant_witness :
    mkCourseLocator (some "mit.eecs") (some "6002x") (some "fall")
        none (.vstr "519665F6223EBD6980884F2B") false
      = .ok ⟨some "mit.eecs", some "6002x", some "fall", none,
          some (.oid ⟨"519665f6223ebd6980884f2b"⟩), false⟩ :=
  C6_invariant.2 "mit.eecs" "6002x" "fall" "519665F6223EBD6980884F2B" none
    ⟨"519665f6223ebd6980884f2b"⟩ (by decide) (by decide) (by decide) forall_mem_none
    (by decide)

/-- C7 counterexample: a definition id of an unsupported type does not make
construction fail — the constructor falls through all three `isinstance`
arms, raises nothing, and leaves the instance uninitialised. -/
theorem C7_counterexample :
    mkDefinitionLocator (some "problem") DefIdInput.otherInput
      = DefInitResult.uninitialized := rfl

/-- C7 (amended): an unsupported definition-id input yields no valid
instance — for every block type the constructor silently returns an
uninitialised object (neither an initialised instance nor an exception). -/
theorem C7_other_input_amended :
    ∀ bt : Option String,
      mkDefinitionLocator bt DefIdInput.otherInput = DefInitResult.uninitialized :=
  fun _ => rfl

/-- C8 counterexample: a version value that cannot be coerced makes
`as_object_id` raise `ValueError`, not the invalid-key error the claim
requires for all failures. -/
theorem C8_counterexample :
    Locator.as_object_id "not-a-guid"
      = .error (.valueError "\"not-a-guid\" is not a valid version_guid") := by
  decide

/-- C8 (amended): the two named failure sites raise `ValueError`, not the
invalid-key kind — a version value that cannot be coerced to 24-hex, and a
version-tree root whose locator's version is falsy. -/
theorem C8_error_kinds_amended :
    (∀ s : String, asObjectId s = none →
      Locator.as_object_id s
        = .error (.valueError ("\"" ++ s ++ "\" is not a valid version_guid")))
    ∧ (∀ (fuel : Nat) (loc : AnyLocator)
        (td : Option (List (PyVersionVal × List AnyLocator))),
        loc.versionVal.truthy = false →
        buildVersionTree (fuel + 1) loc td
          = .error (.valueError
              "locator must be version specific (Course has version_guid or definition had id)")) := by
  constructor
  · intro s h
    unfold Locator.as_object_id
    rw [h]
  · intro fuel loc td h
    simp [buildVersionTree, h]

/-- C8 witness. -/
theorem C8_error_kinds_amended_witness :
    Locator.as_object_id "zzz" = .error (.valueError "\"zzz\" is not a valid version_guid")
    ∧ buildVersionTree 1 (.course ⟨some "o", some "c", some "r", none, none, false⟩) none
      = .error (.valueError
          "locator must be version specific (Course has version_guid or definition had id)") :=
  ⟨C8_error_kinds_amended.1 "zzz" (by decide),
   C8_error_kinds_amended.2 0 (.course ⟨some "o", some "c", some "r", none, none, false⟩)
     none (by decide)⟩

/-- C9: evaluation at the failing inputs.  A `LocalId` block id makes
construction raise `TypeError` (the charset regex is matched against a
non-string before the local-id flag can accept it), in both modes; and an
empty-string block id fails with `InvalidKeyError(cls, "")` from
`_parse_block_ref`, not with the constructor's "Missing block id" error. -/
theorem C9_local_id_type_error :
    mkBlockUsageLocator ⟨some "org", some "course", some "run", none, none, false⟩
        (some "problem") (.localId ⟨none, 1⟩) false
      = .error (.typeError "expected string or buffer")
    ∧ mkBlockUsageLocator ⟨some "org", some "course", some "run", none, none, false⟩
        (some "problem") (.localId ⟨none, 1⟩) true
      = .error (.typeError "expected string or buffer")
    ∧ mkBlockUsageLocator ⟨some "org", some "course", some "run", none, none, false⟩
        (some "problem") (.str "") false
      = .error (.invalidKey "BlockUsageLocator" (.str "")) :=
  ⟨rfl, rfl, rfl⟩

/-- C10 (confirmed): whenever `_parse_block_ref` returns, it returns its
input unchanged, and that input (hence the result) is never `None` — `None`
itself raises `TypeError` from the regex match; consequently the
constructor's "Missing block id" branch is unreachable for any block id that
passes `_parse_block_ref`: construction then succeeds with the returned id. -/
theorem C10_parse_block_ref_identity :
    (∀ (b : BlockRef) (dep : Bool) (r : BlockRef),
      parse_block_ref b dep = .ok r → r = b ∧ b ≠ BlockRef.pynone)
    ∧ (∀ dep : Bool,
      parse_block_ref BlockRef.pynone dep = .error (.typeError "expected string or buffer"))
    ∧ (∀ (ck : CourseLocator) (bt : Option String) (b : BlockRef) (dep : Bool) (r : BlockRef),
        parse_block_ref b dep = .ok r →
        mkBlockUsageLocator ck bt b dep = .ok ⟨ck, bt, r, dep⟩) := by
  refine ⟨?_, fun _ => rfl, ?_⟩
  · intro b dep r h
    cases b with
    | str s =>
      simp only [parse_block_ref] at h
      by_cases hcond : (matchAllowedId s || dep && matchDepAllowedId s) = true
      · rw [if_pos hcond] at h
        cases h
        exact ⟨rfl, fun hcon => BlockRef.noConfusion hcon⟩
      · rw [if_neg hcond] at h
        cases h
    | localId l => cases h
    | pynone => cases h
  · intro ck bt b dep r h
    cases b with
    | str s =>
      have hrs : r = BlockRef.str s := by
        simp only [parse_block_ref] at h
        by_cases hcond : (matchAllowedId s || dep && matchDepAllowedId s) = true
        · rw [if_pos hcond] at h
          cases h
          rfl
        · rw [if_neg hcond] at h
          cases h
      unfold mkBlockUsageLocator
      rw [show parse_block_ref (BlockRef.str s) dep = .ok r from h]
      subst hrs
      rfl
    | localId l => cases h
    | pynone => cases h

/-- C10 witness. -/
theorem C10_parse_block_ref_identity_witness :
    ((BlockRef.str "prob1") = BlockRef.str "prob1" ∧ BlockRef.str "prob1" ≠ BlockRef.pynone)
    ∧ parse_block_ref BlockRef.pynone false = .error (.typeError "expected string or buffer")
    ∧ mkBlockUsageLocator ⟨some "o", some "c", some "r", none, none, false⟩
        (some "problem") (.str "prob1") false
      = .ok ⟨⟨some "o", some "c", some "r", none, none, false⟩, some "problem",
          .str "prob1", false⟩ :=
  ⟨C10_parse_block_ref_identity.1 (.str "prob1") false (.str "prob1") (by decide),
   C10_parse_block_ref_identity.2.1 false,
   C10_parse_block_ref_identity.2.2 ⟨some "o", some "c", some "r", none, none, false⟩
     (some "problem") (.str "prob1") false (.str "prob1") (by decide)⟩

end OpaqueKeys
